import Mathlib

/-!
Verification of the rustation-libretro renderer core.

Shallow embedding of the renderer/batching core:
  * `src/retrogl/buffer.rs`   — `DrawBuffer` (GPU-side contents abstracted,
    only the host-visible `capacity`/`len` bookkeeping is modelled);
  * `src/renderer/mod.rs`     — `GlRenderer` (current revision);
  * `src/retrogl/mod.rs`      — `RetroGl` / `GlState` lifecycle state machine;
  * `src/retrogl/gl_state/mod.rs` and `src/retrogl/dummy_state.rs` — the
    older `GlState`/`DummyState` revision (namespace `OldRev`).

Modelling conventions: machine integers are `Nat`/`Int` (the i16 counters
involved never overflow on the reachable ranges used in the theorems);
`Vec<u16>` VRAM is modelled as an address-indexed map `Nat → Nat`
(address = y * 1024 + x); OpenGL calls have no host-visible state, so data
handed to the GPU is recorded as a ghost event trace (`Ev`), and functions
that can `panic!`/`unwrap()` return `Option` (`none` = panic).
-/

namespace Rustation

/-- Width of the PlayStation VRAM in pixels (`VRAM_WIDTH_PIXELS`). -/
def VRAM_WIDTH_PIXELS : Nat := 1024

/-- Height of the PlayStation VRAM in lines (`VRAM_HEIGHT`). -/
def VRAM_HEIGHT : Nat := 512

/-- Total number of VRAM pixels (`VRAM_PIXELS` in `retrogl/mod.rs`). -/
def VRAM_PIXELS : Nat := VRAM_WIDTH_PIXELS * VRAM_HEIGHT

/-- How many vertices are buffered before a draw is forced
(`VERTEX_BUFFER_LEN` in `renderer/mod.rs`). -/
def VERTEX_BUFFER_LEN : Nat := 2048

/-- OpenGL errors (`retrogl/error.rs`, variants relevant to the model). -/
inductive GlError where
  | invalidEnum
  | invalidValue
  | invalidOperation
  | invalidFramebufferOperatior
  | outOfMemory
  | badProgram
  deriving DecidableEq, Repr

/-- `DrawBuffer<T>` from `retrogl/buffer.rs`. The vertex data itself lives
in GPU memory (`glBufferSubData`), so the host-visible state is the fixed
`capacity` and the logical `len`. The phantom type parameter mirrors the
Rust type parameter. -/
structure DrawBuffer (α : Type) where
  capacity : Nat
  len : Nat
  deriving DecidableEq, Repr

namespace DrawBuffer

/-- `DrawBuffer::new` (GL object creation abstracted; `clear()` leaves
`len = 0`). -/
def new (α : Type) (capacity : Nat) : DrawBuffer α :=
  { capacity := capacity, len := 0 }

/-- `DrawBuffer::remaining_capacity`. -/
def remaining_capacity (b : DrawBuffer α) : Nat :=
  b.capacity - b.len

/-- `DrawBuffer::empty`. -/
def empty (b : DrawBuffer α) : Bool :=
  b.len = 0

/-- `DrawBuffer::clear`: orphan the GPU storage and reset the logical
length to zero. -/
def clear (b : DrawBuffer α) : DrawBuffer α :=
  { b with len := 0 }

/-- `DrawBuffer::push_slice`: fails with `Error::OutOfMemory` when the
slice does not fit in the remaining room, otherwise grows `len`. Returns
the buffer state after the call together with the `Result`. -/
def push_slice (b : DrawBuffer α) (slice : List α) :
    DrawBuffer α × Except GlError Unit :=
  if slice.length > b.remaining_capacity then
    (b, .error .outOfMemory)
  else
    ({ b with len := b.len + slice.length }, .ok ())

end DrawBuffer

/-- `SemiTransparencyMode` from `renderer/mod.rs` (spelling kept). -/
inductive SemiTransparencyMode where
  | Average
  | Add
  | SubstractSource
  | AddQuarterSource
  deriving DecidableEq, Repr

/-- GL primitive topology used for the command buffer (`gl::TRIANGLES` /
`gl::LINES`). -/
inductive DrawMode where
  | triangles
  | lines
  deriving DecidableEq, Repr

/-- GL polygon mode (`gl::LINE` / `gl::FILL`), used for wireframe. -/
inductive PolygonMode where
  | line
  | fill
  deriving DecidableEq, Repr

/-- GL texture storage formats used by the renderer. -/
inductive TexStorage where
  | rgb5a1
  | rgba8
  | depthComponent32f
  | r16ui
  deriving DecidableEq, Repr

/-- `Texture` from `retrogl/texture.rs`: the host-visible descriptor of a
GPU texture allocation. -/
structure Texture where
  width : Nat
  height : Nat
  storage : TexStorage
  deriving DecidableEq, Repr

/-- `Texture::new` (GL allocation abstracted). -/
def Texture.new (width height : Nat) (storage : TexStorage) : Texture :=
  { width := width, height := height, storage := storage }

/-- `DrawConfig` from `retrogl/mod.rs`. `vram: Vec<u16>` is modelled as an
address-indexed map (address = y * VRAM_WIDTH_PIXELS + x). -/
structure DrawConfig where
  display_top_left : Nat × Nat
  display_resolution : Nat × Nat
  display_24bpp : Bool
  draw_offset : Int × Int
  draw_area_top_left : Nat × Nat
  draw_area_dimensions : Nat × Nat
  vram : Nat → Nat

/-- `CommandVertex` from `renderer/mod.rs` (current revision; `position`
carries the synthetic z in its third component). -/
structure CommandVertex where
  position : Int × Int × Int
  color : Nat × Nat × Nat
  texture_coord : Nat × Nat
  texture_page : Nat × Nat
  clut : Nat × Nat
  texture_blend_mode : Nat
  depth_shift : Nat
  dither : Nat
  semi_transparent : Nat
  deriving DecidableEq, Repr

/-- `ImageLoadVertex` from `renderer/mod.rs`. -/
structure ImageLoadVertex where
  position : Nat × Nat
  deriving DecidableEq, Repr

/-- `OutputVertex` from `renderer/mod.rs` (screen position abstracted to
the corner index since floats carry no logic here). -/
structure OutputVertex where
  corner : Nat
  fb_coord : Nat × Nat
  deriving DecidableEq, Repr

/-- Configuration variables read through `CoreVariables`
(`internal_resolution`, `internal_color_depth`, `scale_dither`,
`wireframe`). -/
structure CoreVariables where
  internal_resolution : Nat
  internal_color_depth : Nat
  scale_dither : Bool
  wireframe : Bool
  deriving DecidableEq, Repr

/-- Ghost event trace recording the data handed to the GPU: `flush` is a
non-no-op `draw()` (with the value of the `offset` uniform used), `prim`
is one pushed primitive together with the batches it was appended to. -/
inductive Ev where
  | flush (offset : Int × Int)
  | prim (vs : List CommandVertex) (opq : Bool) (semiT : Bool)
  deriving DecidableEq, Repr

/-- `GlRenderer` from `renderer/mod.rs`. -/
structure GlRenderer where
  command_buffer : DrawBuffer CommandVertex
  command_draw_mode : DrawMode
  semi_transparent_vertices : List CommandVertex
  semi_transparency_mode : SemiTransparencyMode
  command_polygon_mode : PolygonMode
  output_buffer : DrawBuffer OutputVertex
  image_load_buffer : DrawBuffer ImageLoadVertex
  config : DrawConfig
  fb_texture : Texture
  fb_out : Texture
  fb_out_depth : Texture
  frontend_resolution : Nat × Nat
  internal_upscaling : Nat
  internal_color_depth : Nat
  primitive_ordering : Int

/-- Helper writing the synthetic z (`i.position[2] = z` in the push
functions). -/
def CommandVertex.with_z (v : CommandVertex) (z : Int) : CommandVertex :=
  { v with position := (v.position.1, v.position.2.1, z) }

namespace GlRenderer

/-- The `match depth` arms selecting the storage format of `fb_out`;
`none` models the `panic!("Unsupported depth")` arm. -/
def texture_storage (depth : Nat) : Option TexStorage :=
  if depth = 16 then some .rgb5a1
  else if depth = 32 then some .rgba8
  else none

/-- `GlRenderer::upload_textures`: the texture upload and the replay quad
pass are GPU-side; the host-visible effect is on `image_load_buffer`
(clear, then push of the four corner vertices). `none` models a failed
`try!`. -/
def upload_textures (s : GlRenderer) (top_left dimensions : Nat × Nat) :
    Option GlRenderer :=
  let x_start := top_left.1
  let x_end := x_start + dimensions.1
  let y_start := top_left.2
  let y_end := y_start + dimensions.2
  let b1 := s.image_load_buffer.clear
  match b1.push_slice
      [{ position := (x_start, y_start) },
       { position := (x_end, y_start) },
       { position := (x_start, y_end) },
       { position := (x_end, y_end) }] with
  | (b2, Except.ok _) => some { s with image_load_buffer := b2 }
  | (_, Except.error _) => none

/-- `GlRenderer::from_config` (shader compilation and GL allocation are
abstracted; the `panic!` on an unsupported color depth is `none`). -/
def from_config (config : DrawConfig) (vars : CoreVariables) :
    Option GlRenderer :=
  let upscaling := vars.internal_resolution
  let depth := vars.internal_color_depth
  let wireframe := vars.wireframe
  let native_width := VRAM_WIDTH_PIXELS
  let native_height := VRAM_HEIGHT
  let command_draw_mode := if wireframe then PolygonMode.line else PolygonMode.fill
  match texture_storage depth with
  | none => none
  | some storage =>
    let fb_out := Texture.new (native_width * upscaling)
      (native_height * upscaling) storage
    let state : GlRenderer :=
      { command_buffer := DrawBuffer.new CommandVertex VERTEX_BUFFER_LEN
        command_draw_mode := DrawMode.triangles
        semi_transparent_vertices := []
        semi_transparency_mode := SemiTransparencyMode.Average
        command_polygon_mode := command_draw_mode
        output_buffer := DrawBuffer.new OutputVertex 4
        image_load_buffer := DrawBuffer.new ImageLoadVertex 4
        config := config
        fb_texture := Texture.new native_width native_height .rgb5a1
        fb_out := fb_out
        fb_out_depth := Texture.new fb_out.width fb_out.height .depthComponent32f
        frontend_resolution := (0, 0)
        internal_upscaling := upscaling
        internal_color_depth := depth
        primitive_ordering := 0 }
    state.upload_textures (0, 0) (VRAM_WIDTH_PIXELS, VRAM_HEIGHT)

/-- `GlRenderer::draw`: no-op when both batches are empty; otherwise draws
the opaque batch, then pushes and draws the semi-transparent batch, clears
both and resets `primitive_ordering`. Emits one `Ev.flush` carrying the
`offset` uniform used. `none` models a failed `unwrap()`. -/
def draw (s : GlRenderer) : Option (GlRenderer × List Ev) :=
  if s.command_buffer.empty && s.semi_transparent_vertices.isEmpty then
    some (s, [])
  else
    let offset := s.config.draw_offset
    let s1 :=
      if !s.command_buffer.empty then
        { s with command_buffer := s.command_buffer.clear }
      else s
    let after_semi : Option GlRenderer :=
      if s1.semi_transparent_vertices.isEmpty then some s1
      else
        match s1.command_buffer.push_slice s1.semi_transparent_vertices with
        | (_, Except.error _) => none
        | (b2, Except.ok _) =>
          some { s1 with command_buffer := b2.clear,
                         semi_transparent_vertices := [] }
    after_semi.map fun s2 =>
      ({ s2 with primitive_ordering := 0 }, [Ev.flush offset])

/-- The `force_draw` boolean of `GlRenderer::maybe_force_draw`. The
`Vec::capacity` of `semi_transparent_vertices` is its initial
`with_capacity(VERTEX_BUFFER_LEN)` allocation: the flush discipline keeps
the length at most `VERTEX_BUFFER_LEN`, so the vector never reallocates. -/
def force_draw_cond (s : GlRenderer) (nvertices : Nat) (draw_mode : DrawMode)
    (semi_transparent : Bool)
    (semi_transparency_mode : SemiTransparencyMode) : Bool :=
  let semi_transparent_remaining_capacity :=
    VERTEX_BUFFER_LEN - s.semi_transparent_vertices.length
  decide (s.command_buffer.remaining_capacity < nvertices) ||
  decide (semi_transparent_remaining_capacity < nvertices) ||
  decide (s.command_draw_mode ≠ draw_mode) ||
  (semi_transparent && !s.semi_transparent_vertices.isEmpty &&
   decide (s.semi_transparency_mode ≠ semi_transparency_mode))

/-- `GlRenderer::maybe_force_draw`. -/
def maybe_force_draw (s : GlRenderer) (nvertices : Nat) (draw_mode : DrawMode)
    (semi_transparent : Bool)
    (semi_transparency_mode : SemiTransparencyMode) :
    Option (GlRenderer × List Ev) :=
  if force_draw_cond s nvertices draw_mode semi_transparent
      semi_transparency_mode then
    s.draw.map fun p =>
      ({ p.1 with
          command_draw_mode := draw_mode
          semi_transparency_mode :=
            if semi_transparent then semi_transparency_mode
            else p.1.semi_transparency_mode }, p.2)
  else
    some (s, [])

/-- `GlRenderer::push_triangle`. -/
def push_triangle (s : GlRenderer)
    (v : CommandVertex × CommandVertex × CommandVertex)
    (semi_transparency_mode : SemiTransparencyMode) :
    Option (GlRenderer × List Ev) :=
  match s.maybe_force_draw 3 .triangles (v.1.semi_transparent == 1)
      semi_transparency_mode with
  | none => none
  | some (s1, evs) =>
    let z := s1.primitive_ordering
    let s2 := { s1 with primitive_ordering := z + 1 }
    let vz : List CommandVertex :=
      [v.1.with_z z, v.2.1.with_z z, v.2.2.with_z z]
    let needs_opaque_draw :=
      !(v.1.semi_transparent == 1) || !(v.1.texture_blend_mode == 0)
    let after_op : Option GlRenderer :=
      if needs_opaque_draw then
        match s2.command_buffer.push_slice vz with
        | (_, Except.error _) => none
        | (b, Except.ok _) => some { s2 with command_buffer := b }
      else some s2
    after_op.map fun s3 =>
      let s4 :=
        if v.1.semi_transparent == 1 then
          { s3 with semi_transparent_vertices :=
              s3.semi_transparent_vertices ++ vz }
        else s3
      (s4, evs ++ [Ev.prim vz needs_opaque_draw (v.1.semi_transparent == 1)])

/-- `GlRenderer::push_line`. -/
def push_line (s : GlRenderer) (v : CommandVertex × CommandVertex)
    (semi_transparency_mode : SemiTransparencyMode) :
    Option (GlRenderer × List Ev) :=
  match s.maybe_force_draw 2 .lines (v.1.semi_transparent == 1)
      semi_transparency_mode with
  | none => none
  | some (s1, evs) =>
    let z := s1.primitive_ordering
    let s2 := { s1 with primitive_ordering := z + 1 }
    let vz : List CommandVertex := [v.1.with_z z, v.2.with_z z]
    let after : Option GlRenderer :=
      if v.1.semi_transparent == 1 then
        some { s2 with semi_transparent_vertices :=
            s2.semi_transparent_vertices ++ vz }
      else
        match s2.command_buffer.push_slice vz with
        | (_, Except.error _) => none
        | (b, Except.ok _) => some { s2 with command_buffer := b }
    after.map fun s3 =>
      (s3, evs ++ [Ev.prim vz (!(v.1.semi_transparent == 1))
                     (v.1.semi_transparent == 1)])

/-- `GlRenderer::set_draw_offset`: flush, then update the offset. -/
def set_draw_offset (s : GlRenderer) (x y : Int) :
    Option (GlRenderer × List Ev) :=
  s.draw.map fun p =>
    ({ p.1 with config := { p.1.config with draw_offset := (x, y) } }, p.2)

/-- `GlRenderer::set_draw_area`: flush, then update the clip rectangle
(the scissor call is GPU-side). -/
def set_draw_area (s : GlRenderer) (top_left dimensions : Nat × Nat) :
    Option (GlRenderer × List Ev) :=
  s.draw.map fun p =>
    ({ p.1 with config :=
        { p.1.config with
            draw_area_top_left := top_left
            draw_area_dimensions := dimensions } }, p.2)

/-- `GlRenderer::set_display_mode` (no flush). -/
def set_display_mode (s : GlRenderer) (top_left resolution : Nat × Nat)
    (depth_24bpp : Bool) : GlRenderer :=
  { s with config :=
      { s.config with
          display_top_left := top_left
          display_resolution := resolution
          display_24bpp := depth_24bpp } }

/-- `GlRenderer::refresh_variables`. Returns the new state, the
`reconfigure_frontend` result, and the `rebuild_fb_out` flag recording
whether the output color/depth textures were reallocated. -/
def refresh_variables (s : GlRenderer) (vars : CoreVariables) :
    Option (GlRenderer × Bool × Bool) :=
  let upscaling := vars.internal_resolution
  let depth := vars.internal_color_depth
  let wireframe := vars.wireframe
  let rebuild_fb_out :=
    decide (upscaling ≠ s.internal_upscaling) ||
    decide (depth ≠ s.internal_color_depth)
  let rebuilt : Option GlRenderer :=
    if rebuild_fb_out then
      match texture_storage depth with
      | none => none
      | some storage =>
        let w := VRAM_WIDTH_PIXELS * upscaling
        let h := VRAM_HEIGHT * upscaling
        let s1 := { s with fb_out := Texture.new w h storage }
        (s1.upload_textures (0, 0) (VRAM_WIDTH_PIXELS, VRAM_HEIGHT)).map
          fun s2 => { s2 with fb_out_depth := Texture.new w h .depthComponent32f }
    else some s
  rebuilt.map fun s2 =>
    let s3 := { s2 with command_polygon_mode :=
        if wireframe then PolygonMode.line else PolygonMode.fill }
    let reconfigure_frontend := decide (s3.internal_upscaling ≠ upscaling)
    ({ s3 with internal_upscaling := upscaling, internal_color_depth := depth },
     reconfigure_frontend, rebuild_fb_out)

/-- `GlRenderer::bind_libretro_framebuffer`: renegotiates the frontend
geometry when the scaled display size differs from the cached one. -/
def bind_libretro_framebuffer (s : GlRenderer) : GlRenderer :=
  let w := s.config.display_resolution.1 * s.internal_upscaling
  let h := s.config.display_resolution.2 * s.internal_upscaling
  if w ≠ s.frontend_resolution.1 ∨ h ≠ s.frontend_resolution.2 then
    { s with frontend_resolution := (w, h) }
  else s

/-- `GlRenderer::prepare_render` only mutates GL state. -/
def prepare_render (s : GlRenderer) : GlRenderer := s

/-- `GlRenderer::finalize_frame`: flush, bind the frontend framebuffer,
then draw the output quad. -/
def finalize_frame (s : GlRenderer) : Option (GlRenderer × List Ev) :=
  match s.draw with
  | none => none
  | some (s1, evs) =>
    let s2 := s1.bind_libretro_framebuffer
    let fb_x_start := s2.config.display_top_left.1
    let fb_y_start := s2.config.display_top_left.2
    let fb_x_end := fb_x_start + s2.config.display_resolution.1
    let fb_y_end := fb_y_start + s2.config.display_resolution.2
    let ob1 := s2.output_buffer.clear
    match ob1.push_slice
        [{ corner := 0, fb_coord := (fb_x_start, fb_y_end) },
         { corner := 1, fb_coord := (fb_x_end, fb_y_end) },
         { corner := 2, fb_coord := (fb_x_start, fb_y_start) },
         { corner := 3, fb_coord := (fb_x_end, fb_y_start) }] with
    | (_, Except.error _) => none
    | (ob2, Except.ok _) => some ({ s2 with output_buffer := ob2 }, evs)

/-- `GlRenderer::draw_config`. -/
def draw_config (s : GlRenderer) : DrawConfig := s.config

end GlRenderer

/-- One call of the emulation core into the `Renderer` interface of
`GlRenderer` (the operations the batching claims quantify over). -/
inductive Cmd where
  | tri (v : CommandVertex × CommandVertex × CommandVertex)
      (mode : SemiTransparencyMode)
  | line (v : CommandVertex × CommandVertex) (mode : SemiTransparencyMode)
  | offset (x y : Int)
  deriving DecidableEq, Repr

/-- Dispatch one `Cmd` to the renderer. -/
def step_cmd (s : GlRenderer) : Cmd → Option (GlRenderer × List Ev)
  | .tri v m => s.push_triangle v m
  | .line v m => s.push_line v m
  | .offset x y => s.set_draw_offset x y

/-- Run a sequence of `Cmd`s, accumulating the ghost event trace. -/
def run_from (s : GlRenderer) : List Cmd → Option (GlRenderer × List Ev)
  | [] => some (s, [])
  | c :: cs =>
    match step_cmd s c with
    | none => none
    | some (s1, e1) =>
      match run_from s1 cs with
      | none => none
      | some (s2, e2) => some (s2, e1 ++ e2)

/-- Pointwise update of an address-indexed map (one `vram[i] = v` store). -/
def store (m : Nat → Nat) (i v : Nat) : Nat → Nat :=
  fun j => if j = i then v else m j

namespace OldRev

/-- `CommandVertex` from `retrogl/gl_state/mod.rs` (older revision:
2-D position, no `semi_transparent` flag). -/
structure CommandVertex where
  position : Int × Int
  color : Nat × Nat × Nat
  texture_coord : Nat × Nat
  texture_page : Nat × Nat
  clut : Nat × Nat
  texture_blend_mode : Nat
  depth_shift : Nat
  dither : Nat
  deriving DecidableEq, Repr

/-- Ghost events of the older revision: a non-no-op `draw()` with the
`offset` uniform it used. -/
inductive Ev where
  | flush (offset : Int × Int)
  deriving DecidableEq, Repr

/-- `GlState` from `retrogl/gl_state/mod.rs` (the older live-renderer
revision, dispatched through the `State`/`Renderer` traits). -/
structure GlState where
  command_buffer : DrawBuffer CommandVertex
  command_draw_mode : DrawMode
  command_polygon_mode : PolygonMode
  output_buffer : DrawBuffer OutputVertex
  image_load_buffer : DrawBuffer ImageLoadVertex
  config : DrawConfig
  fb_texture : Texture
  fb_out : Texture
  frontend_resolution : Nat × Nat
  internal_upscaling : Nat
  internal_color_depth : Nat

namespace GlState

/-- `GlState::upload_textures` (older revision): GPU texture upload plus
the `image_load_buffer` clear/push of the four corners. -/
def upload_textures (s : GlState) (top_left dimensions : Nat × Nat) :
    Option GlState :=
  let x_start := top_left.1
  let x_end := x_start + dimensions.1
  let y_start := top_left.2
  let y_end := y_start + dimensions.2
  let b1 := s.image_load_buffer.clear
  match b1.push_slice
      [{ position := (x_start, y_start) },
       { position := (x_end, y_start) },
       { position := (x_start, y_end) },
       { position := (x_end, y_end) }] with
  | (b2, Except.ok _) => some { s with image_load_buffer := b2 }
  | (_, Except.error _) => none

/-- `GlState::from_config` (older revision; `internal_upscale_factor` is
the `internal_resolution` field of `CoreVariables`). -/
def from_config (config : DrawConfig) (vars : CoreVariables) :
    Option GlState :=
  let upscaling := vars.internal_resolution
  let depth := vars.internal_color_depth
  let wireframe := vars.wireframe
  let native_width := VRAM_WIDTH_PIXELS
  let native_height := VRAM_HEIGHT
  let command_draw_mode :=
    if wireframe then PolygonMode.line else PolygonMode.fill
  match GlRenderer.texture_storage depth with
  | none => none
  | some storage =>
    let state : GlState :=
      { command_buffer := DrawBuffer.new CommandVertex 2048
        command_draw_mode := DrawMode.triangles
        command_polygon_mode := command_draw_mode
        output_buffer := DrawBuffer.new OutputVertex 4
        image_load_buffer := DrawBuffer.new ImageLoadVertex 4
        config := config
        fb_texture := Texture.new native_width native_height .r16ui
        fb_out := Texture.new (native_width * upscaling)
          (native_height * upscaling) storage
        frontend_resolution := (0, 0)
        internal_upscaling := upscaling
        internal_color_depth := depth }
    state.upload_textures (0, 0) (VRAM_WIDTH_PIXELS, VRAM_HEIGHT)

/-- `GlState::draw` (older revision): no-op when the command buffer is
empty, otherwise draws with the `offset` uniform read from the config at
draw time and clears the buffer. -/
def draw (s : GlState) : GlState × List Ev :=
  if s.command_buffer.empty then (s, [])
  else
    let offset := s.config.draw_offset
    ({ s with command_buffer := s.command_buffer.clear }, [Ev.flush offset])

/-- `Renderer::set_draw_offset` for the older `GlState`: updates the
config WITHOUT flushing the command buffer. -/
def set_draw_offset (s : GlState) (x y : Int) : GlState :=
  { s with config := { s.config with draw_offset := (x, y) } }

/-- `Renderer::push_triangle` for the older `GlState`. The
`CommandVertex::from_vertex` conversion applied to the caller's vertices
is orthogonal to the claims; the already-converted vertices are taken as
input. -/
def push_triangle (s : GlState)
    (v : CommandVertex × CommandVertex × CommandVertex) :
    Option (GlState × List Ev) :=
  let force_draw :=
    decide (s.command_buffer.remaining_capacity < 3) ||
    decide (s.command_draw_mode ≠ DrawMode.triangles)
  let p :=
    if force_draw then
      let q := s.draw
      ({ q.1 with command_draw_mode := DrawMode.triangles }, q.2)
    else (s, [])
  match p.1.command_buffer.push_slice [v.1, v.2.1, v.2.2] with
  | (_, Except.error _) => none
  | (b, Except.ok _) => some ({ p.1 with command_buffer := b }, p.2)

/-- The nested `for y in 0..h { for x in 0..w { .. } }` VRAM update loop
of `GlState::load_image`, written as folds over `0..h` and `0..w`. -/
def load_image_vram (vram : Nat → Nat) (x_start y_start w h : Nat)
    (pixel_buffer : Nat → Nat) : Nat → Nat :=
  (List.range h).foldl
    (fun vr y =>
      (List.range w).foldl
        (fun vr2 x =>
          store vr2 ((y_start + y) * VRAM_WIDTH_PIXELS + (x_start + x))
            (pixel_buffer (y * w + x)))
        vr)
    vram

/-- `Renderer::load_image` for the older `GlState`: flush, copy the pixel
buffer into `DrawConfig.vram` (row-major, VRAM-width stride), then
re-upload the sub-rectangle to the GPU. -/
def load_image (s : GlState) (top_left resolution : Nat × Nat)
    (pixel_buffer : Nat → Nat) : Option (GlState × List Ev) :=
  let p := s.draw
  let s1 := p.1
  let x_start := top_left.1
  let y_start := top_left.2
  let w := resolution.1
  let h := resolution.2
  let vram2 := load_image_vram s1.config.vram x_start y_start w h pixel_buffer
  let s2 := { s1 with config := { s1.config with vram := vram2 } }
  (s2.upload_textures top_left resolution).map fun s3 => (s3, p.2)

end GlState

/-- Modelled from the spec: `PrimitiveAttributes` of the external
rustation crate (spec section 3: texture page, CLUT, blend mode, texture
depth, dither, transparency), absent from src/. Only carried opaquely by
`DummyState`. -/
structure PrimitiveAttributes where
  texture_page : Nat × Nat
  clut : Nat × Nat
  blend_mode : Nat
  texture_depth : Nat
  dither : Bool
  semi_transparent : Bool
  deriving DecidableEq, Repr

/-- Modelled from the spec: `Vertex` of the external rustation crate
(spec section 3: position, color, texture coordinate), absent from src/.
Only carried opaquely by `DummyState`. -/
structure Vertex where
  position : Int × Int
  color : Nat × Nat × Nat
  texture_coord : Nat × Nat
  deriving DecidableEq, Repr

/-- `DummyState` from `retrogl/dummy_state.rs`: the suspended (no GL
context) state; it only holds the `DrawConfig`. -/
structure DummyState where
  config : DrawConfig

namespace DummyState

/-- `DummyState::from_config`. -/
def from_config (config : DrawConfig) : DummyState :=
  { config := config }

/-- `DummyState::draw_config`. -/
def draw_config (s : DummyState) : DrawConfig := s.config

/-- `Renderer::set_draw_offset` for `DummyState` (host-memory config
update only). -/
def set_draw_offset (s : DummyState) (x y : Int) : DummyState :=
  { s with config := { s.config with draw_offset := (x, y) } }

/-- `Renderer::push_line` for `DummyState`: logs a warning and does
nothing. -/
def push_line (s : DummyState) (_ : PrimitiveAttributes)
    (_ : Vertex × Vertex) : DummyState := s

/-- `Renderer::push_triangle` for `DummyState`: logs a warning and does
nothing. -/
def push_triangle (s : DummyState) (_ : PrimitiveAttributes)
    (_ : Vertex × Vertex × Vertex) : DummyState := s

/-- `Renderer::push_quad` for `DummyState`: logs a warning and does
nothing. -/
def push_quad (s : DummyState) (_ : PrimitiveAttributes)
    (_ : Vertex × Vertex × Vertex × Vertex) : DummyState := s

/-- `Renderer::load_image` for `DummyState`: logs a warning and does
nothing. -/
def load_image (s : DummyState) (_ _ : Nat × Nat)
    (_ : Nat → Nat) : DummyState := s

end DummyState

end OldRev

/-- `VideoClock` of the rustation core (opaque to the renderer). -/
inductive VideoClock where
  | ntsc
  | pal
  deriving DecidableEq, Repr

/-- `GlState` from `retrogl/mod.rs` (current revision): the context
state machine. -/
inductive GlState where
  | Valid (r : GlRenderer)
  | Invalid (c : DrawConfig)

/-- The `match self.state` pattern reading the current `DrawConfig` used
by `context_reset`, `context_destroy` and the savestate encoder. -/
def GlState.draw_config : GlState → DrawConfig
  | .Valid r => r.draw_config
  | .Invalid c => c

/-- `RetroGl` from `retrogl/mod.rs` (current revision). -/
structure RetroGl where
  state : GlState
  video_clock : VideoClock

/-- The boot-time `DrawConfig` built by `RetroGl::new` (the VRAM bootup
contents are the `0xdead` filler). -/
def initial_draw_config : DrawConfig :=
  { display_top_left := (0, 0)
    display_resolution := (1024, 512)
    display_24bpp := false
    draw_area_top_left := (0, 0)
    draw_area_dimensions := (0, 0)
    draw_offset := (0, 0)
    vram := fun _ => 0xdead }

namespace RetroGl

/-- `RetroGl::new`: fails when the frontend refuses the pixel format or
the hardware-context request; otherwise starts in the `Invalid`
(no-context) state holding the boot config. -/
def new (video_clock : VideoClock)
    (set_pixel_format_ok hw_context_init_ok : Bool) : Option RetroGl :=
  if !set_pixel_format_ok then none
  else if !hw_context_init_ok then none
  else some { state := GlState.Invalid initial_draw_config
              video_clock := video_clock }

/-- `RetroGl::context_reset`: rebuild a live renderer from whichever
config the current state holds. `none` models the `panic!` when renderer
construction fails. -/
def context_reset (rg : RetroGl) (vars : CoreVariables) : Option RetroGl :=
  let config := rg.state.draw_config
  (GlRenderer.from_config config vars).map fun r =>
    { rg with state := GlState.Valid r }

/-- `RetroGl::context_destroy`: drop GPU resources, keep the config. -/
def context_destroy (rg : RetroGl) : RetroGl :=
  match rg.state with
  | GlState.Valid r => { rg with state := GlState.Invalid r.draw_config }
  | GlState.Invalid _ => rg

/-- `RetroGl::is_valid`. -/
def is_valid (rg : RetroGl) : Bool :=
  match rg.state with
  | GlState.Valid _ => true
  | GlState.Invalid _ => false

/-- `RetroGl::render_frame`: in the `Invalid` state the call is rejected
by the `panic!("Attempted to render a frame without GL context")`, modelled
as an `Except.error` carrying that message; in the `Valid` state it runs
`prepare_render`, the emulation closure, and `finalize_frame`. -/
def render_frame (rg : RetroGl)
    (emulate : GlRenderer → Option (GlRenderer × List Ev)) :
    Except String (RetroGl × List Ev) :=
  match rg.state with
  | GlState.Invalid _ =>
    Except.error "Attempted to render a frame without GL context"
  | GlState.Valid r =>
    let r1 := r.prepare_render
    match emulate r1 with
    | none => Except.error "emulation aborted"
    | some (r2, evs) =>
      match r2.finalize_frame with
      | none => Except.error "finalize_frame aborted"
      | some (r3, evs2) =>
        Except.ok ({ rg with state := GlState.Valid r3 }, evs ++ evs2)

end RetroGl

/-- The flush condition exactly as the spec phrases it (C1): the buffer
cannot hold the new vertex count, OR the new primitive's topology differs
from `command_draw_mode`, OR the primitive is semi-transparent, the
semi-transparent batch is non-empty, and its blend mode differs from
`semi_transparency_mode`. -/
def claimed_force_flush (s : GlRenderer) (nvertices : Nat)
    (draw_mode : DrawMode) (semi_transparent : Bool)
    (semi_transparency_mode : SemiTransparencyMode) : Bool :=
  decide (s.command_buffer.remaining_capacity < nvertices) ||
  decide (s.command_draw_mode ≠ draw_mode) ||
  (semi_transparent && !s.semi_transparent_vertices.isEmpty &&
   decide (s.semi_transparency_mode ≠ semi_transparency_mode))

/-- Trace checker for the synthetic-z discipline (C2): every `prim`
event's vertices all carry z equal to the number of primitives pushed
since the most recent flush event; the counter starts at the renderer's
`primitive_ordering`. -/
def zs_ok : Int → List Ev → Bool
  | _, [] => true
  | _, Ev.flush _ :: rest => zs_ok 0 rest
  | k, Ev.prim vs _ _ :: rest =>
    vs.all (fun v => v.position.2.2 == k) && zs_ok (k + 1) rest

/-- The number of primitives submitted since the most recent flush in an
event trace (starting from counter `k`). -/
def prims_since_flush : Int → List Ev → Int
  | k, [] => k
  | _, Ev.flush _ :: rest => prims_since_flush 0 rest
  | k, Ev.prim _ _ _ :: rest => prims_since_flush (k + 1) rest

/-- The configuration used by the concrete witnesses (1x, 16bpp). -/
def fresh_vars : CoreVariables :=
  { internal_resolution := 1, internal_color_depth := 16,
    scale_dither := true, wireframe := false }

/-- The renderer built by `from_config` from the boot config at 1x/16bpp
(the value `from_config initial_draw_config fresh_vars` computes to). -/
def fresh_renderer : GlRenderer :=
  { command_buffer := { capacity := VERTEX_BUFFER_LEN, len := 0 }
    command_draw_mode := DrawMode.triangles
    semi_transparent_vertices := []
    semi_transparency_mode := SemiTransparencyMode.Average
    command_polygon_mode := PolygonMode.fill
    output_buffer := { capacity := 4, len := 0 }
    image_load_buffer := { capacity := 4, len := 4 }
    config := initial_draw_config
    fb_texture := Texture.new VRAM_WIDTH_PIXELS VRAM_HEIGHT TexStorage.rgb5a1
    fb_out := Texture.new (VRAM_WIDTH_PIXELS * 1) (VRAM_HEIGHT * 1)
      TexStorage.rgb5a1
    fb_out_depth := Texture.new (VRAM_WIDTH_PIXELS * 1) (VRAM_HEIGHT * 1)
      TexStorage.depthComponent32f
    frontend_resolution := (0, 0)
    internal_upscaling := 1
    internal_color_depth := 16
    primitive_ordering := 0 }

/-- The older revision's `GlState` built by its `from_config` from the
boot config at 1x/16bpp (the value it computes to). -/
def old_fresh_state : OldRev.GlState :=
  { command_buffer := { capacity := 2048, len := 0 }
    command_draw_mode := DrawMode.triangles
    command_polygon_mode := PolygonMode.fill
    output_buffer := { capacity := 4, len := 0 }
    image_load_buffer := { capacity := 4, len := 4 }
    config := initial_draw_config
    fb_texture := Texture.new VRAM_WIDTH_PIXELS VRAM_HEIGHT TexStorage.r16ui
    fb_out := Texture.new (VRAM_WIDTH_PIXELS * 1) (VRAM_HEIGHT * 1)
      TexStorage.rgb5a1
    frontend_resolution := (0, 0)
    internal_upscaling := 1
    internal_color_depth := 16 }

/-- Concrete vertex data used by the C6 counterexample (older
revision). -/
def c6_old_vertex : OldRev.CommandVertex :=
  { position := (0, 0), color := (0, 0, 0), texture_coord := (0, 0),
    texture_page := (0, 0), clut := (0, 0), texture_blend_mode := 0,
    depth_shift := 0, dither := 0 }

/-- Vertex of a semi-transparent RAW-TEXTURED primitive (blend mode 1). -/
def c7_line_vertex : CommandVertex :=
  { position := (0, 0, 0), color := (0, 0, 0), texture_coord := (0, 0),
    texture_page := (0, 0), clut := (0, 0), texture_blend_mode := 1,
    depth_shift := 0, dither := 0, semi_transparent := 1 }

/-- Vertex of a semi-transparent NON-textured primitive (blend mode
`none`): it is appended only to the semi-transparent batch. -/
def c1_vertex : CommandVertex :=
  { position := (0, 0, 0), color := (0, 0, 0), texture_coord := (0, 0),
    texture_page := (0, 0), clut := (0, 0), texture_blend_mode := 0,
    depth_shift := 0, dither := 0, semi_transparent := 1 }

/-- One semi-transparent non-textured triangle push in `Average` mode. -/
def c1_cmd : Cmd :=
  Cmd.tri (c1_vertex, c1_vertex, c1_vertex) SemiTransparencyMode.Average

/-! ### Helper lemmas -/

/-- Clearing a buffer whose logical length is already zero is the
identity. -/
theorem DrawBuffer.clear_of_len_zero {α : Type} {b : DrawBuffer α}
    (h : b.len = 0) : b.clear = b := by
  cases b
  simp_all [DrawBuffer.clear]

/-- `draw` is a no-op when both batches are empty. -/
theorem GlRenderer.draw_noop {s : GlRenderer}
    (hc : s.command_buffer.len = 0)
    (hs : s.semi_transparent_vertices = []) :
    s.draw = some (s, []) := by
  simp [GlRenderer.draw, DrawBuffer.empty, hc, hs]

/-- `draw` on a state with something buffered flushes: both batches are
cleared, `primitive_ordering` is reset, and the single flush event records
the `offset` uniform read from the config. -/
theorem GlRenderer.draw_flush {s : GlRenderer}
    (hne : ¬(s.command_buffer.len = 0 ∧ s.semi_transparent_vertices = []))
    (hcap : s.semi_transparent_vertices.length ≤ s.command_buffer.capacity) :
    s.draw = some
      ({ s with command_buffer := s.command_buffer.clear
                semi_transparent_vertices := []
                primitive_ordering := 0 },
       [Ev.flush s.config.draw_offset]) := by
  unfold GlRenderer.draw
  by_cases hc : s.command_buffer.len = 0
  · have hs : ¬ s.semi_transparent_vertices = [] := fun h => hne ⟨hc, h⟩
    have hcl : s.command_buffer.clear = s.command_buffer :=
      DrawBuffer.clear_of_len_zero hc
    simp [DrawBuffer.empty, hc, hs, DrawBuffer.push_slice,
      DrawBuffer.remaining_capacity, Nat.not_lt.mpr hcap, DrawBuffer.clear,
      List.isEmpty_iff, hcl]
  · by_cases hs : s.semi_transparent_vertices = []
    · simp [DrawBuffer.empty, hc, hs, List.isEmpty_iff, DrawBuffer.clear]
    · simp [DrawBuffer.empty, hc, hs, List.isEmpty_iff,
        DrawBuffer.push_slice, DrawBuffer.remaining_capacity,
        DrawBuffer.clear, Nat.not_lt.mpr, hcap]

/-- `draw` aborts (unwrap panic) only when the semi-transparent batch
does not fit the command buffer capacity. -/
theorem GlRenderer.draw_none {s : GlRenderer}
    (hcap : s.command_buffer.capacity < s.semi_transparent_vertices.length) :
    s.draw = none := by
  have hsne : s.semi_transparent_vertices ≠ [] := by
    intro h
    rw [h] at hcap
    simp at hcap
  unfold GlRenderer.draw
  by_cases hc : s.command_buffer.len = 0
  · have hcl : s.command_buffer.clear = s.command_buffer :=
      DrawBuffer.clear_of_len_zero hc
    simp [DrawBuffer.empty, hc, hsne, List.isEmpty_iff, DrawBuffer.push_slice,
      DrawBuffer.remaining_capacity, hcl, Nat.sub_eq, hcap,
      Nat.lt_of_le_of_lt (Nat.sub_le _ _) hcap]
  · simp [DrawBuffer.empty, hc, hsne, List.isEmpty_iff, DrawBuffer.push_slice,
      DrawBuffer.remaining_capacity, DrawBuffer.clear, hcap]

/-- A successful `from_config` stores the given config unchanged and
starts with empty batches, triangle topology, `Average` transparency and
ordering 0. -/
theorem GlRenderer.from_config_eq_some (c : DrawConfig) (vars : CoreVariables)
    (hdepth : vars.internal_color_depth = 16 ∨
      vars.internal_color_depth = 32) :
    ∃ r, GlRenderer.from_config c vars = some r ∧ r.config = c ∧
      r.command_buffer = DrawBuffer.new CommandVertex VERTEX_BUFFER_LEN ∧
      r.command_draw_mode = DrawMode.triangles ∧
      r.semi_transparent_vertices = [] ∧
      r.semi_transparency_mode = SemiTransparencyMode.Average ∧
      r.primitive_ordering = 0 ∧
      r.internal_upscaling = vars.internal_resolution ∧
      r.internal_color_depth = vars.internal_color_depth := by
  rcases hdepth with h | h <;>
  · rcases hsome : GlRenderer.from_config c vars with _ | r
    · exfalso
      simp [GlRenderer.from_config, GlRenderer.texture_storage, h,
        GlRenderer.upload_textures, DrawBuffer.push_slice, DrawBuffer.clear,
        DrawBuffer.new, DrawBuffer.remaining_capacity] at hsome
    · simp only [GlRenderer.from_config, GlRenderer.texture_storage, h,
        GlRenderer.upload_textures, DrawBuffer.push_slice, DrawBuffer.clear,
        DrawBuffer.new, DrawBuffer.remaining_capacity] at hsome
      norm_num at hsome
      subst hsome
      exact ⟨_, rfl, rfl, rfl, rfl, rfl, rfl, rfl, rfl, h.symm⟩

/-! ### C3 — context loss and recovery -/

/-- C3: a context-destroy transition keeps the complete `DrawConfig` in
the `Invalid` (suspended) state, and a subsequent context-reset rebuilds a
live renderer whose `draw_offset`, `draw_area_top_left`,
`draw_area_dimensions`, `display_resolution` and full VRAM are exactly
the values held before the destroy. -/
theorem c3_context_loss_preserves_config (rg : RetroGl)
    (vars : CoreVariables)
    (hdepth : vars.internal_color_depth = 16 ∨
      vars.internal_color_depth = 32) :
    rg.context_destroy.state.draw_config = rg.state.draw_config ∧
    ∃ rg', rg.context_destroy.context_reset vars = some rg' ∧
      rg'.is_valid = true ∧
      rg'.state.draw_config.draw_offset =
        rg.state.draw_config.draw_offset ∧
      rg'.state.draw_config.draw_area_top_left =
        rg.state.draw_config.draw_area_top_left ∧
      rg'.state.draw_config.draw_area_dimensions =
        rg.state.draw_config.draw_area_dimensions ∧
      rg'.state.draw_config.display_resolution =
        rg.state.draw_config.display_resolution ∧
      rg'.state.draw_config.vram = rg.state.draw_config.vram := by
  have hpres : rg.context_destroy.state.draw_config = rg.state.draw_config := by
    rcases rg with ⟨st, vc⟩
    cases st <;>
      simp [RetroGl.context_destroy, GlState.draw_config, GlRenderer.draw_config]
  obtain ⟨r, hr, hconf, -⟩ :=
    GlRenderer.from_config_eq_some rg.context_destroy.state.draw_config
      vars hdepth
  have hreset : rg.context_destroy.context_reset vars =
      some { rg.context_destroy with state := GlState.Valid r } := by
    simp only [RetroGl.context_reset]
    rw [hr]
    rfl
  have hcfg : ({ rg.context_destroy with state := GlState.Valid r } :
      RetroGl).state.draw_config = rg.state.draw_config := by
    show r.config = rg.state.draw_config
    rw [hconf, hpres]
  exact ⟨hpres, _, hreset, rfl, by rw [hcfg], by rw [hcfg], by rw [hcfg],
    by rw [hcfg], by rw [hcfg]⟩

/-- C3 witness: round-trip from the boot state at 1x/16bpp settings. -/
theorem c3_context_loss_preserves_config_witness :
    ({ state := GlState.Invalid initial_draw_config
       video_clock := VideoClock.ntsc } : RetroGl).context_destroy.state.draw_config =
      ({ state := GlState.Invalid initial_draw_config
         video_clock := VideoClock.ntsc } : RetroGl).state.draw_config ∧
    ∃ rg', (({ state := GlState.Invalid initial_draw_config
               video_clock := VideoClock.ntsc } : RetroGl).context_destroy.context_reset
        { internal_resolution := 1, internal_color_depth := 16,
          scale_dither := true, wireframe := false }) = some rg' ∧
      rg'.is_valid = true ∧
      rg'.state.draw_config.draw_offset =
        initial_draw_config.draw_offset ∧
      rg'.state.draw_config.draw_area_top_left =
        initial_draw_config.draw_area_top_left ∧
      rg'.state.draw_config.draw_area_dimensions =
        initial_draw_config.draw_area_dimensions ∧
      rg'.state.draw_config.display_resolution =
        initial_draw_config.display_resolution ∧
      rg'.state.draw_config.vram = initial_draw_config.vram :=
  c3_context_loss_preserves_config
    { state := GlState.Invalid initial_draw_config
      video_clock := VideoClock.ntsc }
    { internal_resolution := 1, internal_color_depth := 16,
      scale_dither := true, wireframe := false }
    (Or.inl rfl)

/-! ### C6 — set_draw_offset flushing discipline -/

/-- C6 (amended): the current `GlRenderer::set_draw_offset` flushes the
buffered vertices (they are drawn with the old offset, recorded in the
flush event) before updating `DrawConfig.draw_offset`, leaving both
batches empty; the older `GlState` revision's `Renderer::set_draw_offset`
updates the offset without flushing, leaving its command buffer
untouched. -/
theorem c6_set_draw_offset_amended (s : GlRenderer) (x y : Int) :
    (∀ s' evs, s.set_draw_offset x y = some (s', evs) →
      s'.config.draw_offset = (x, y) ∧
      s'.command_buffer.len = 0 ∧
      s'.semi_transparent_vertices = [] ∧
      (evs = [] ∨ evs = [Ev.flush s.config.draw_offset])) ∧
    (∀ t : OldRev.GlState,
      (t.set_draw_offset x y).config.draw_offset = (x, y) ∧
      (t.set_draw_offset x y).command_buffer = t.command_buffer) := by
  constructor
  · intro s' evs h
    unfold GlRenderer.set_draw_offset at h
    by_cases hne : s.command_buffer.len = 0 ∧ s.semi_transparent_vertices = []
    · rw [GlRenderer.draw_noop hne.1 hne.2] at h
      simp only [Option.map, Option.some.injEq, Prod.mk.injEq] at h
      obtain ⟨h1, h2⟩ := h
      subst h1
      exact ⟨rfl, hne.1, hne.2, Or.inl h2.symm⟩
    · by_cases hcap : s.semi_transparent_vertices.length ≤
          s.command_buffer.capacity
      · rw [GlRenderer.draw_flush hne hcap] at h
        simp only [Option.map, Option.some.injEq, Prod.mk.injEq] at h
        obtain ⟨h1, h2⟩ := h
        subst h1
        exact ⟨rfl, rfl, rfl, Or.inr h2.symm⟩
      · rw [GlRenderer.draw_none (not_le.mp hcap)] at h
        simp [Option.map] at h
  · intro t
    exact ⟨rfl, rfl⟩

/-- C6 witness: flushing `set_draw_offset` on the freshly constructed
renderer (no-op flush case) adopts the new offset with empty batches. -/
theorem c6_set_draw_offset_amended_witness :
    ∃ r, GlRenderer.from_config initial_draw_config
        { internal_resolution := 1, internal_color_depth := 16,
          scale_dither := true, wireframe := false } = some r ∧
      ∀ s' evs, r.set_draw_offset 37 (-12) = some (s', evs) →
        s'.config.draw_offset = (37, -12) ∧
        s'.command_buffer.len = 0 ∧
        s'.semi_transparent_vertices = [] ∧
        (evs = [] ∨ evs = [Ev.flush r.config.draw_offset]) := by
  obtain ⟨r, hr, -⟩ := GlRenderer.from_config_eq_some initial_draw_config
    { internal_resolution := 1, internal_color_depth := 16,
      scale_dither := true, wireframe := false } (Or.inl rfl)
  exact ⟨r, hr, fun s' evs h =>
    (c6_set_draw_offset_amended r 37 (-12)).1 s' evs h⟩

/-- C6 counterexample: on the older `GlState` revision (a live renderer
state of the repository), pushing one triangle and then calling
`set_draw_offset 37 (-12)` leaves the three vertices buffered (no flush),
and the next `draw` rasterizes them with the NEW offset — contradicting
the claim that `set_draw_offset` first flushes and that afterwards the
batches are empty. -/
theorem c6_counterexample :
    ((OldRev.GlState.from_config initial_draw_config
        { internal_resolution := 1, internal_color_depth := 16,
          scale_dither := true, wireframe := false }).bind
      fun t =>
        (t.push_triangle (c6_old_vertex, c6_old_vertex, c6_old_vertex)).map
          fun p =>
            ((p.1.set_draw_offset 37 (-12)).command_buffer.len,
             (p.1.set_draw_offset 37 (-12)).config.draw_offset,
             (p.1.set_draw_offset 37 (-12)).draw.2))
      = some (3, (37, -12), [OldRev.Ev.flush (37, -12)]) := by
  rfl

/-- `upload_textures` only touches `image_load_buffer` (and GPU state):
all other host fields are preserved. -/
theorem GlRenderer.upload_textures_fields (s : GlRenderer)
    (tl dim : Nat × Nat) :
    ∀ s', s.upload_textures tl dim = some s' →
      s'.internal_upscaling = s.internal_upscaling ∧
      s'.internal_color_depth = s.internal_color_depth ∧
      s'.config = s.config ∧
      s'.command_buffer = s.command_buffer ∧
      s'.semi_transparent_vertices = s.semi_transparent_vertices ∧
      s'.command_draw_mode = s.command_draw_mode ∧
      s'.semi_transparency_mode = s.semi_transparency_mode ∧
      s'.primitive_ordering = s.primitive_ordering := by
  intro s' h
  unfold GlRenderer.upload_textures at h
  simp only [DrawBuffer.push_slice] at h
  split at h
  · simp only [Option.some.injEq] at h
    subst h
    exact ⟨rfl, rfl, rfl, rfl, rfl, rfl, rfl, rfl⟩
  · exact absurd h (by simp)

/-- Characterization of the `refresh_variables` results: the returned
`reconfigure_frontend` flag compares the old and new upscaling factors,
the `rebuild_fb_out` flag compares upscaling and color depth, and the new
state records the configured values. -/
theorem GlRenderer.refresh_variables_rc (s : GlRenderer)
    (vars : CoreVariables) :
    ∀ s' rc rb, s.refresh_variables vars = some (s', rc, rb) →
      rc = decide (s.internal_upscaling ≠ vars.internal_resolution) ∧
      rb = (decide (vars.internal_resolution ≠ s.internal_upscaling) ||
            decide (vars.internal_color_depth ≠ s.internal_color_depth)) ∧
      s'.internal_upscaling = vars.internal_resolution ∧
      s'.internal_color_depth = vars.internal_color_depth := by
  intro s' rc rb h
  simp only [GlRenderer.refresh_variables] at h
  rw [Option.map_eq_some'] at h
  obtain ⟨p, hp, hfp⟩ := h
  simp only [Prod.mk.injEq] at hfp
  obtain ⟨h1, h2, h3⟩ := hfp
  subst h1 h2 h3
  by_cases hrb : (decide (vars.internal_resolution ≠ s.internal_upscaling) ||
      decide (vars.internal_color_depth ≠ s.internal_color_depth)) = true
  · rw [if_pos hrb] at hp
    rcases hst : GlRenderer.texture_storage vars.internal_color_depth
        with _ | storage <;> rw [hst] at hp
    · simp at hp
    · rw [Option.map_eq_some'] at hp
      obtain ⟨s2, hup, hg⟩ := hp
      obtain ⟨hu, -⟩ := GlRenderer.upload_textures_fields _ _ _ s2 hup
      have hpu : p.internal_upscaling = s.internal_upscaling := by
        rw [← hg]
        exact hu
      refine ⟨by simp [hpu], rfl, rfl, rfl⟩
  · rw [if_neg hrb] at hp
    simp only [Option.some.injEq] at hp
    subst hp
    exact ⟨by simp, rfl, rfl, rfl⟩

/-- With unchanged configuration, `refresh_variables` reallocates nothing
(`rebuild_fb_out = false`), returns `false`, and keeps the recorded
upscaling and depth. -/
theorem GlRenderer.refresh_variables_unchanged (s : GlRenderer)
    (vars : CoreVariables)
    (hu : vars.internal_resolution = s.internal_upscaling)
    (hd : vars.internal_color_depth = s.internal_color_depth) :
    ∃ s1, s.refresh_variables vars = some (s1, false, false) ∧
      s1.internal_upscaling = s.internal_upscaling ∧
      s1.internal_color_depth = s.internal_color_depth := by
  have h1 : (decide (vars.internal_resolution ≠ s.internal_upscaling) ||
      decide (vars.internal_color_depth ≠ s.internal_color_depth)) = false := by
    simp [hu, hd]
  have h2 : decide (s.internal_upscaling ≠ vars.internal_resolution) = false := by
    simp [hu]
  refine ⟨{ s with
      command_polygon_mode :=
        if vars.wireframe then PolygonMode.line else PolygonMode.fill
      internal_upscaling := vars.internal_resolution
      internal_color_depth := vars.internal_color_depth }, ?_, hu, hd⟩
  simp only [GlRenderer.refresh_variables, h1, Bool.false_eq_true, if_false,
    Option.map_some', Option.some.injEq, Prod.mk.injEq]
  exact ⟨trivial, h2, trivial⟩

/-! ### C5 — refresh_variables idempotence -/

/-- C5: `refresh_variables` returns `true` exactly when the configured
upscaling factor differs from the current `internal_upscaling` (so a
depth-only change returns `false`), and two consecutive calls with an
unchanged configuration reallocate no output texture
(`rebuild_fb_out = false`) and return `false` both times. -/
theorem c5_refresh_variables_idempotent (s : GlRenderer)
    (vars : CoreVariables) :
    (∀ s' rc rb, s.refresh_variables vars = some (s', rc, rb) →
      (rc = true ↔ vars.internal_resolution ≠ s.internal_upscaling)) ∧
    (vars.internal_resolution = s.internal_upscaling →
      ∀ s' rc rb, s.refresh_variables vars = some (s', rc, rb) →
        rc = false) ∧
    (vars.internal_resolution = s.internal_upscaling →
      vars.internal_color_depth = s.internal_color_depth →
      ∃ s1 s2, s.refresh_variables vars = some (s1, false, false) ∧
        s1.refresh_variables vars = some (s2, false, false)) := by
  refine ⟨?_, ?_, ?_⟩
  · intro s' rc rb h
    obtain ⟨h1, -⟩ := GlRenderer.refresh_variables_rc s vars s' rc rb h
    subst h1
    simp [ne_comm]
  · intro hu s' rc rb h
    obtain ⟨h1, -⟩ := GlRenderer.refresh_variables_rc s vars s' rc rb h
    subst h1
    simp [hu]
  · intro hu hd
    obtain ⟨s1, hs1, hu1, hd1⟩ :=
      GlRenderer.refresh_variables_unchanged s vars hu hd
    obtain ⟨s2, hs2, -⟩ := GlRenderer.refresh_variables_unchanged s1 vars
      (hu.trans hu1.symm) (hd.trans hd1.symm)
    exact ⟨s1, s2, hs1, hs2⟩

/-- C5 witness: on the freshly built renderer at 1x/16bpp, refreshing
with the same configuration twice returns `false`/no-realloc twice, and
the returned flag is `false` exactly because the upscaling is unchanged. -/
theorem c5_refresh_variables_idempotent_witness :
    ∃ r, GlRenderer.from_config initial_draw_config
        { internal_resolution := 1, internal_color_depth := 16,
          scale_dither := true, wireframe := false } = some r ∧
      ∃ s1 s2, r.refresh_variables
          { internal_resolution := 1, internal_color_depth := 16,
            scale_dither := true, wireframe := false } =
          some (s1, false, false) ∧
        s1.refresh_variables
          { internal_resolution := 1, internal_color_depth := 16,
            scale_dither := true, wireframe := false } =
          some (s2, false, false) := by
  obtain ⟨r, hr, -, -, -, -, -, -, hup, hdep⟩ :=
    GlRenderer.from_config_eq_some initial_draw_config
      { internal_resolution := 1, internal_color_depth := 16,
        scale_dither := true, wireframe := false } (Or.inl rfl)
  exact ⟨r, hr,
    (c5_refresh_variables_idempotent r
      { internal_resolution := 1, internal_color_depth := 16,
        scale_dither := true, wireframe := false }).2.2
      hup.symm hdep.symm⟩

/-! ### Equations for maybe_force_draw and the push functions -/

/-- `maybe_force_draw` with a false `force_draw` condition is a no-op. -/
theorem GlRenderer.maybe_force_draw_eq_false (s : GlRenderer)
    (n : Nat) (dm : DrawMode) (st : Bool) (stm : SemiTransparencyMode)
    (h : s.force_draw_cond n dm st stm = false) :
    s.maybe_force_draw n dm st stm = some (s, []) := by
  simp [GlRenderer.maybe_force_draw, h]

/-- `maybe_force_draw` with a true condition on empty batches: the
`draw()` is a no-op, only the topology (and, for semi-transparent
primitives, the transparency mode) is adopted. -/
theorem GlRenderer.maybe_force_draw_eq_true_noop (s : GlRenderer)
    (n : Nat) (dm : DrawMode) (st : Bool) (stm : SemiTransparencyMode)
    (h : s.force_draw_cond n dm st stm = true)
    (hc : s.command_buffer.len = 0)
    (hs : s.semi_transparent_vertices = []) :
    s.maybe_force_draw n dm st stm =
      some ({ s with
          command_draw_mode := dm
          semi_transparency_mode :=
            if st then stm else s.semi_transparency_mode }, []) := by
  simp [GlRenderer.maybe_force_draw, h, GlRenderer.draw_noop hc hs]

/-- `maybe_force_draw` with a true condition on non-empty batches:
flush, then adopt the new topology/transparency mode. -/
theorem GlRenderer.maybe_force_draw_eq_true_flush (s : GlRenderer)
    (n : Nat) (dm : DrawMode) (st : Bool) (stm : SemiTransparencyMode)
    (h : s.force_draw_cond n dm st stm = true)
    (hne : ¬(s.command_buffer.len = 0 ∧ s.semi_transparent_vertices = []))
    (hcap : s.semi_transparent_vertices.length ≤ s.command_buffer.capacity) :
    s.maybe_force_draw n dm st stm =
      some ({ s with
          command_buffer := s.command_buffer.clear
          semi_transparent_vertices := []
          primitive_ordering := 0
          command_draw_mode := dm
          semi_transparency_mode :=
            if st then stm else s.semi_transparency_mode },
        [Ev.flush s.config.draw_offset]) := by
  simp [GlRenderer.maybe_force_draw, h, GlRenderer.draw_flush hne hcap]

/-- Full characterization of a successful `push_triangle` relative to the
state after `maybe_force_draw`. -/
theorem GlRenderer.push_triangle_eq (s : GlRenderer)
    (v : CommandVertex × CommandVertex × CommandVertex)
    (m : SemiTransparencyMode) (s1 : GlRenderer) (evs1 : List Ev)
    (hmf : s.maybe_force_draw 3 DrawMode.triangles
      (v.1.semi_transparent == 1) m = some (s1, evs1))
    (hcap : (!(v.1.semi_transparent == 1) ||
        !(v.1.texture_blend_mode == 0)) = true →
      3 ≤ s1.command_buffer.remaining_capacity) :
    s.push_triangle v m = some
      ({ s1 with
          primitive_ordering := s1.primitive_ordering + 1
          command_buffer :=
            if !(v.1.semi_transparent == 1) || !(v.1.texture_blend_mode == 0)
            then { s1.command_buffer with
                len := s1.command_buffer.len + 3 }
            else s1.command_buffer
          semi_transparent_vertices :=
            if v.1.semi_transparent == 1
            then s1.semi_transparent_vertices ++
              [v.1.with_z s1.primitive_ordering,
               v.2.1.with_z s1.primitive_ordering,
               v.2.2.with_z s1.primitive_ordering]
            else s1.semi_transparent_vertices },
       evs1 ++ [Ev.prim
         [v.1.with_z s1.primitive_ordering,
          v.2.1.with_z s1.primitive_ordering,
          v.2.2.with_z s1.primitive_ordering]
         (!(v.1.semi_transparent == 1) || !(v.1.texture_blend_mode == 0))
         (v.1.semi_transparent == 1)]) := by
  unfold GlRenderer.push_triangle
  rw [hmf]
  by_cases hsem : (v.1.semi_transparent == 1) = true
  · by_cases hbl : (v.1.texture_blend_mode == 0) = true
    · simp [hsem, hbl]
    · replace hbl : (v.1.texture_blend_mode == 0) = false := by
        simpa using hbl
      simp [hsem, hbl, DrawBuffer.push_slice,
        Nat.not_lt.mpr (hcap (by simp [hsem, hbl]))]
  · replace hsem : (v.1.semi_transparent == 1) = false := by
      simpa using hsem
    simp [hsem, DrawBuffer.push_slice,
      Nat.not_lt.mpr (hcap (by simp [hsem]))]

/-- Full characterization of a successful `push_line` relative to the
state after `maybe_force_draw`. -/
theorem GlRenderer.push_line_eq (s : GlRenderer)
    (v : CommandVertex × CommandVertex)
    (m : SemiTransparencyMode) (s1 : GlRenderer) (evs1 : List Ev)
    (hmf : s.maybe_force_draw 2 DrawMode.lines
      (v.1.semi_transparent == 1) m = some (s1, evs1))
    (hcap : (v.1.semi_transparent == 1) = false →
      2 ≤ s1.command_buffer.remaining_capacity) :
    s.push_line v m = some
      ({ s1 with
          primitive_ordering := s1.primitive_ordering + 1
          command_buffer :=
            if v.1.semi_transparent == 1
            then s1.command_buffer
            else { s1.command_buffer with
                len := s1.command_buffer.len + 2 }
          semi_transparent_vertices :=
            if v.1.semi_transparent == 1
            then s1.semi_transparent_vertices ++
              [v.1.with_z s1.primitive_ordering,
               v.2.with_z s1.primitive_ordering]
            else s1.semi_transparent_vertices },
       evs1 ++ [Ev.prim
         [v.1.with_z s1.primitive_ordering,
          v.2.with_z s1.primitive_ordering]
         (!(v.1.semi_transparent == 1))
         (v.1.semi_transparent == 1)]) := by
  unfold GlRenderer.push_line
  rw [hmf]
  by_cases hsem : (v.1.semi_transparent == 1) = true
  · simp [hsem]
  · replace hsem : (v.1.semi_transparent == 1) = false := by
      simpa using hsem
    simp [hsem, DrawBuffer.push_slice, Nat.not_lt.mpr (hcap hsem)]

/-- Inversion for `draw`: a successful call is either a no-op (no event,
state unchanged) or a flush (one event with the current offset, ordering
reset to 0). -/
theorem GlRenderer.draw_inv (s : GlRenderer) :
    ∀ s' evs, s.draw = some (s', evs) →
      (evs = [] ∧ s' = s) ∨
      (evs = [Ev.flush s.config.draw_offset] ∧
        s'.primitive_ordering = 0) := by
  intro s' evs h
  by_cases hne : s.command_buffer.len = 0 ∧ s.semi_transparent_vertices = []
  · rw [GlRenderer.draw_noop hne.1 hne.2] at h
    simp only [Option.some.injEq, Prod.mk.injEq] at h
    exact Or.inl ⟨h.2.symm, h.1.symm⟩
  · by_cases hcap : s.semi_transparent_vertices.length ≤
        s.command_buffer.capacity
    · rw [GlRenderer.draw_flush hne hcap] at h
      simp only [Option.some.injEq, Prod.mk.injEq] at h
      obtain ⟨h1, h2⟩ := h
      subst h1
      exact Or.inr ⟨h2.symm, rfl⟩
    · rw [GlRenderer.draw_none (not_le.mp hcap)] at h
      exact absurd h (by simp)

/-- Inversion for `maybe_force_draw`: either no event and unchanged
ordering, or one flush event and ordering 0. -/
theorem GlRenderer.maybe_force_draw_inv (s : GlRenderer) (n : Nat)
    (dm : DrawMode) (st : Bool) (stm : SemiTransparencyMode) :
    ∀ s1 evs1, s.maybe_force_draw n dm st stm = some (s1, evs1) →
      (evs1 = [] ∧ s1.primitive_ordering = s.primitive_ordering) ∨
      (evs1 = [Ev.flush s.config.draw_offset] ∧
        s1.primitive_ordering = 0) := by
  intro s1 evs1 h
  unfold GlRenderer.maybe_force_draw at h
  by_cases hf : s.force_draw_cond n dm st stm = true
  · rw [if_pos hf] at h
    rcases hd : s.draw with _ | p
    · rw [hd] at h
      exact absurd h (by simp)
    · obtain ⟨p1, p2⟩ := p
      rw [hd] at h
      simp only [Option.map_some', Option.some.injEq, Prod.mk.injEq] at h
      obtain ⟨h1, h2⟩ := h
      subst h1
      rcases GlRenderer.draw_inv s p1 p2 hd with ⟨he, hs⟩ | ⟨he, ho⟩
      · subst hs
        exact Or.inl ⟨(he ▸ h2).symm, rfl⟩
      · exact Or.inr ⟨(he ▸ h2).symm, ho⟩
  · rw [if_neg hf] at h
    simp only [Option.some.injEq, Prod.mk.injEq] at h
    obtain ⟨h1, h2⟩ := h
    subst h1
    exact Or.inl ⟨h2.symm, rfl⟩

/-- A `push_triangle` needing an opaque append aborts (unwrap panic)
when the command buffer cannot hold the three vertices. -/
theorem GlRenderer.push_triangle_none (s : GlRenderer)
    (v : CommandVertex × CommandVertex × CommandVertex)
    (m : SemiTransparencyMode) (s1 : GlRenderer) (evs1 : List Ev)
    (hmf : s.maybe_force_draw 3 DrawMode.triangles
      (v.1.semi_transparent == 1) m = some (s1, evs1))
    (hneeds : (!(v.1.semi_transparent == 1) ||
      !(v.1.texture_blend_mode == 0)) = true)
    (hcap : s1.command_buffer.remaining_capacity < 3) :
    s.push_triangle v m = none := by
  unfold GlRenderer.push_triangle
  rw [hmf]
  simp [hneeds, DrawBuffer.push_slice, hcap]

/-- A non-semi-transparent `push_line` aborts when the command buffer
cannot hold the two vertices. -/
theorem GlRenderer.push_line_none (s : GlRenderer)
    (v : CommandVertex × CommandVertex) (m : SemiTransparencyMode)
    (s1 : GlRenderer) (evs1 : List Ev)
    (hmf : s.maybe_force_draw 2 DrawMode.lines
      (v.1.semi_transparent == 1) m = some (s1, evs1))
    (hsem : (v.1.semi_transparent == 1) = false)
    (hcap : s1.command_buffer.remaining_capacity < 2) :
    s.push_line v m = none := by
  unfold GlRenderer.push_line
  rw [hmf]
  simp [hsem, DrawBuffer.push_slice, hcap]

/-- Inversion for `push_triangle`: the assigned z is the ordering after
`maybe_force_draw`, the ordering advances by one, and the pushed vertices
are appended to the event trace. -/
theorem GlRenderer.push_triangle_inv (s : GlRenderer)
    (v : CommandVertex × CommandVertex × CommandVertex)
    (m : SemiTransparencyMode) :
    ∀ s' evs, s.push_triangle v m = some (s', evs) →
      ∃ s1 evs1,
        s.maybe_force_draw 3 DrawMode.triangles
          (v.1.semi_transparent == 1) m = some (s1, evs1) ∧
        s'.primitive_ordering = s1.primitive_ordering + 1 ∧
        evs = evs1 ++ [Ev.prim
          [v.1.with_z s1.primitive_ordering,
           v.2.1.with_z s1.primitive_ordering,
           v.2.2.with_z s1.primitive_ordering]
          (!(v.1.semi_transparent == 1) || !(v.1.texture_blend_mode == 0))
          (v.1.semi_transparent == 1)] := by
  intro s' evs h
  rcases hmf : s.maybe_force_draw 3 DrawMode.triangles
      (v.1.semi_transparent == 1) m with _ | p
  · unfold GlRenderer.push_triangle at h
    rw [hmf] at h
    exact absurd h (by simp)
  · obtain ⟨s1, evs1⟩ := p
    refine ⟨s1, evs1, rfl, ?_⟩
    by_cases hneeds : (!(v.1.semi_transparent == 1) ||
        !(v.1.texture_blend_mode == 0)) = true
    · by_cases hcap : 3 ≤ s1.command_buffer.remaining_capacity
      · rw [GlRenderer.push_triangle_eq s v m s1 evs1 hmf
          (fun _ => hcap)] at h
        simp only [Option.some.injEq, Prod.mk.injEq] at h
        obtain ⟨h1, h2⟩ := h
        subst h1
        exact ⟨rfl, h2.symm⟩
      · rw [GlRenderer.push_triangle_none s v m s1 evs1 hmf hneeds
          (not_le.mp hcap)] at h
        exact absurd h (by simp)
    · replace hneeds : (!(v.1.semi_transparent == 1) ||
          !(v.1.texture_blend_mode == 0)) = false := by
        simpa using hneeds
      rw [GlRenderer.push_triangle_eq s v m s1 evs1 hmf
        (fun hn => absurd hn (by simp [hneeds]))] at h
      simp only [Option.some.injEq, Prod.mk.injEq] at h
      obtain ⟨h1, h2⟩ := h
      subst h1
      exact ⟨rfl, h2.symm⟩

/-- Inversion for `push_line` (same shape as the triangle case). -/
theorem GlRenderer.push_line_inv (s : GlRenderer)
    (v : CommandVertex × CommandVertex) (m : SemiTransparencyMode) :
    ∀ s' evs, s.push_line v m = some (s', evs) →
      ∃ s1 evs1,
        s.maybe_force_draw 2 DrawMode.lines
          (v.1.semi_transparent == 1) m = some (s1, evs1) ∧
        s'.primitive_ordering = s1.primitive_ordering + 1 ∧
        evs = evs1 ++ [Ev.prim
          [v.1.with_z s1.primitive_ordering,
           v.2.with_z s1.primitive_ordering]
          (!(v.1.semi_transparent == 1))
          (v.1.semi_transparent == 1)] := by
  intro s' evs h
  rcases hmf : s.maybe_force_draw 2 DrawMode.lines
      (v.1.semi_transparent == 1) m with _ | p
  · unfold GlRenderer.push_line at h
    rw [hmf] at h
    exact absurd h (by simp)
  · obtain ⟨s1, evs1⟩ := p
    refine ⟨s1, evs1, rfl, ?_⟩
    by_cases hsem : (v.1.semi_transparent == 1) = true
    · rw [GlRenderer.push_line_eq s v m s1 evs1 hmf
        (fun hn => absurd hsem (by simp [hn]))] at h
      simp only [Option.some.injEq, Prod.mk.injEq] at h
      obtain ⟨h1, h2⟩ := h
      subst h1
      exact ⟨rfl, h2.symm⟩
    · replace hsem : (v.1.semi_transparent == 1) = false := by
        simpa using hsem
      by_cases hcap : 2 ≤ s1.command_buffer.remaining_capacity
      · rw [GlRenderer.push_line_eq s v m s1 evs1 hmf (fun _ => hcap)] at h
        simp only [Option.some.injEq, Prod.mk.injEq] at h
        obtain ⟨h1, h2⟩ := h
        subst h1
        exact ⟨rfl, h2.symm⟩
      · rw [GlRenderer.push_line_none s v m s1 evs1 hmf hsem
          (not_le.mp hcap)] at h
        exact absurd h (by simp)

/-- `zs_ok` distributes over trace concatenation, threading the counter
through `prims_since_flush`. -/
theorem zs_ok_append (a : List Ev) : ∀ (k : Int) (b : List Ev),
    zs_ok k (a ++ b) =
      (zs_ok k a && zs_ok (prims_since_flush k a) b) := by
  induction a with
  | nil => intro k b; simp [zs_ok, prims_since_flush]
  | cons e rest ih =>
    intro k b
    cases e with
    | flush off => simp [zs_ok, prims_since_flush, ih]
    | prim vs o st => simp [zs_ok, prims_since_flush, ih, Bool.and_assoc]

/-- `prims_since_flush` composes over trace concatenation. -/
theorem prims_since_flush_append (a : List Ev) : ∀ (k : Int) (b : List Ev),
    prims_since_flush k (a ++ b) =
      prims_since_flush (prims_since_flush k a) b := by
  induction a with
  | nil => intro k b; simp [prims_since_flush]
  | cons e rest ih => intro k b; cases e <;> simp [prims_since_flush, ih]

/-- One emulated `Renderer` call keeps `primitive_ordering` aligned with
the event trace: all z written equal the submission index since the last
flush, and the counter advances/resets accordingly. -/
theorem step_cmd_ordering (s : GlRenderer) (c : Cmd) :
    ∀ s1 e1, step_cmd s c = some (s1, e1) →
      zs_ok s.primitive_ordering e1 = true ∧
      s1.primitive_ordering =
        prims_since_flush s.primitive_ordering e1 := by
  intro s1 e1 h
  cases c with
  | tri v m =>
    obtain ⟨sm, evm, hmf, hord, hevs⟩ :=
      GlRenderer.push_triangle_inv s v m s1 e1 h
    subst hevs
    rcases GlRenderer.maybe_force_draw_inv s 3 DrawMode.triangles
        (v.1.semi_transparent == 1) m sm evm hmf with ⟨he, ho⟩ | ⟨he, ho⟩ <;>
      subst he <;>
      constructor <;>
      simp [zs_ok, prims_since_flush, CommandVertex.with_z, ho, hord]
  | line v m =>
    obtain ⟨sm, evm, hmf, hord, hevs⟩ :=
      GlRenderer.push_line_inv s v m s1 e1 h
    subst hevs
    rcases GlRenderer.maybe_force_draw_inv s 2 DrawMode.lines
        (v.1.semi_transparent == 1) m sm evm hmf with ⟨he, ho⟩ | ⟨he, ho⟩ <;>
      subst he <;>
      constructor <;>
      simp [zs_ok, prims_since_flush, CommandVertex.with_z, ho, hord]
  | offset x y =>
    simp only [step_cmd] at h
    unfold GlRenderer.set_draw_offset at h
    rcases hd : s.draw with _ | p
    · rw [hd] at h
      exact absurd h (by simp)
    · obtain ⟨p1, p2⟩ := p
      rw [hd] at h
      simp only [Option.map_some', Option.some.injEq, Prod.mk.injEq] at h
      obtain ⟨h1, h2⟩ := h
      subst h1
      subst h2
      rcases GlRenderer.draw_inv s p1 p2 hd with ⟨he, hs⟩ | ⟨he, ho⟩
      · subst he
        subst hs
        exact ⟨rfl, rfl⟩
      · subst he
        exact ⟨rfl, ho⟩

/-- Running a command list keeps `primitive_ordering` aligned with the
event trace (counter starting at the initial ordering). -/
theorem run_from_ordering (cmds : List Cmd) : ∀ (s : GlRenderer) s' evs,
    run_from s cmds = some (s', evs) →
    zs_ok s.primitive_ordering evs = true ∧
    s'.primitive_ordering =
      prims_since_flush s.primitive_ordering evs := by
  induction cmds with
  | nil =>
    intro s s' evs h
    simp only [run_from, Option.some.injEq, Prod.mk.injEq] at h
    obtain ⟨h1, h2⟩ := h
    subst h1 h2
    simp [zs_ok, prims_since_flush]
  | cons c cs ih =>
    intro s s' evs h
    rcases hstep : step_cmd s c with _ | p
    · simp [run_from, hstep] at h
    · obtain ⟨s1, e1⟩ := p
      rcases hrun : run_from s1 cs with _ | q
      · simp [run_from, hstep, hrun] at h
      · obtain ⟨s2, e2⟩ := q
        simp only [run_from, hstep, hrun, Option.some.injEq,
          Prod.mk.injEq] at h
        obtain ⟨h1, h2⟩ := h
        subst h1 h2
        obtain ⟨hz1, ho1⟩ := step_cmd_ordering s c s1 e1 hstep
        obtain ⟨hz2, ho2⟩ := ih s1 s2 e2 hrun
        constructor
        · rw [zs_ok_append]
          simp [hz1, ← ho1, hz2]
        · rw [prims_since_flush_append, ← ho1, ho2]

/-! ### C2 — synthetic z equals the submission index -/

/-- C2: over every run of push/flush commands starting from a renderer
with `primitive_ordering = 0`, each pushed primitive writes into ALL of
its vertices a z equal to its submission index counted since the most
recent (non-no-op) flush, and `primitive_ordering` equals the number of
primitives since the last flush throughout (incremented by one per push,
reset to 0 by every flush that drew something). -/
theorem c2_synthetic_z_order (s0 : GlRenderer) (cmds : List Cmd)
    (s' : GlRenderer) (evs : List Ev)
    (h0 : s0.primitive_ordering = 0)
    (hrun : run_from s0 cmds = some (s', evs)) :
    zs_ok 0 evs = true ∧
    s'.primitive_ordering = prims_since_flush 0 evs := by
  have h := run_from_ordering cmds s0 s' evs hrun
  rwa [h0] at h

/-- C2 witness: a concrete trace — two semi-transparent triangles, an
offset change (which flushes), then another triangle. -/
theorem c2_synthetic_z_order_witness :
    ∃ s' evs, run_from fresh_renderer
        [c1_cmd, c1_cmd, Cmd.offset 5 (-3), c1_cmd] = some (s', evs) ∧
      zs_ok 0 evs = true ∧
      s'.primitive_ordering = prims_since_flush 0 evs := by
  have hs : (run_from fresh_renderer
      [c1_cmd, c1_cmd, Cmd.offset 5 (-3), c1_cmd]).isSome = true := rfl
  obtain ⟨⟨s', evs⟩, hr⟩ := Option.isSome_iff_exists.mp hs
  exact ⟨s', evs, hr,
    c2_synthetic_z_order fresh_renderer _ s' evs rfl hr⟩

/-- `from_config` on the boot config evaluates to `fresh_renderer`. -/
theorem fresh_renderer_eq :
    GlRenderer.from_config initial_draw_config fresh_vars =
      some fresh_renderer := rfl

/-! ### C1 — the flush-forcing condition -/

/-- C1 (amended): a flush is forced before buffering a primitive exactly
when the spec's three conditions hold OR the semi-transparent batch
cannot hold the new vertex count; after a forced flush the new topology
is adopted, and for semi-transparent primitives also the new transparency
mode; without a forced flush nothing happens. -/
theorem c1_force_flush_amended (s : GlRenderer) (n : Nat) (dm : DrawMode)
    (st : Bool) (stm : SemiTransparencyMode) :
    s.force_draw_cond n dm st stm =
      (claimed_force_flush s n dm st stm ||
       decide (VERTEX_BUFFER_LEN - s.semi_transparent_vertices.length < n)) ∧
    (∀ s1 evs1, s.maybe_force_draw n dm st stm = some (s1, evs1) →
      (s.force_draw_cond n dm st stm = true →
        s1.command_draw_mode = dm ∧
        (st = true → s1.semi_transparency_mode = stm)) ∧
      (s.force_draw_cond n dm st stm = false →
        s1 = s ∧ evs1 = [])) := by
  constructor
  · rw [Bool.eq_iff_iff]
    simp only [GlRenderer.force_draw_cond, claimed_force_flush,
      Bool.or_eq_true, decide_eq_true_eq, Bool.and_eq_true]
    tauto
  · intro s1 evs1 h
    constructor
    · intro hforce
      unfold GlRenderer.maybe_force_draw at h
      rw [if_pos hforce] at h
      rcases hd : s.draw with _ | p
      · rw [hd] at h
        exact absurd h (by simp)
      · obtain ⟨p1, p2⟩ := p
        rw [hd] at h
        simp only [Option.map_some', Option.some.injEq, Prod.mk.injEq] at h
        obtain ⟨h1, h2⟩ := h
        subst h1
        exact ⟨rfl, fun hst => by simp [hst]⟩
    · intro hforce
      rw [GlRenderer.maybe_force_draw_eq_false s n dm st stm hforce] at h
      simp only [Option.some.injEq, Prod.mk.injEq] at h
      exact ⟨h.1.symm, h.2.symm⟩

/-- C1 witness: on the fresh renderer a `lines` primitive forces a flush
(topology change), and the new topology and transparency mode are
adopted. -/
theorem c1_force_flush_amended_witness :
    fresh_renderer.force_draw_cond 3 DrawMode.lines true
        SemiTransparencyMode.Add =
      (claimed_force_flush fresh_renderer 3 DrawMode.lines true
          SemiTransparencyMode.Add ||
        decide (VERTEX_BUFFER_LEN -
          fresh_renderer.semi_transparent_vertices.length < 3)) ∧
    ∃ s1 evs1, fresh_renderer.maybe_force_draw 3 DrawMode.lines true
        SemiTransparencyMode.Add = some (s1, evs1) ∧
      s1.command_draw_mode = DrawMode.lines ∧
      s1.semi_transparency_mode = SemiTransparencyMode.Add := by
  have h := c1_force_flush_amended fresh_renderer 3 DrawMode.lines true
    SemiTransparencyMode.Add
  refine ⟨h.1, ?_⟩
  have hs : (fresh_renderer.maybe_force_draw 3 DrawMode.lines true
      SemiTransparencyMode.Add).isSome = true := rfl
  obtain ⟨⟨s1, evs1⟩, hm⟩ := Option.isSome_iff_exists.mp hs
  obtain ⟨ha, -⟩ := h.2 s1 evs1 hm
  obtain ⟨hdm, hstm⟩ := ha (by decide)
  exact ⟨s1, evs1, hm, hdm, hstm rfl⟩

/-- Pushing `nn ≤ 682` semi-transparent non-textured triangles (same
`Average` mode) from a state with an empty command buffer never forces a
flush; only the semi-transparent batch grows, by 3 vertices each. -/
theorem c1_run_semi_triangles (nn : Nat) : ∀ (s : GlRenderer),
    s.command_buffer.len = 0 →
    s.command_buffer.capacity = VERTEX_BUFFER_LEN →
    s.command_draw_mode = DrawMode.triangles →
    s.semi_transparency_mode = SemiTransparencyMode.Average →
    s.semi_transparent_vertices.length + 3 * nn ≤ VERTEX_BUFFER_LEN →
    ∃ s' evs, run_from s (List.replicate nn c1_cmd) = some (s', evs) ∧
      s'.command_buffer.len = 0 ∧
      s'.command_buffer.capacity = VERTEX_BUFFER_LEN ∧
      s'.command_draw_mode = DrawMode.triangles ∧
      s'.semi_transparency_mode = SemiTransparencyMode.Average ∧
      s'.semi_transparent_vertices.length =
        s.semi_transparent_vertices.length + 3 * nn := by
  induction nn with
  | zero =>
    intro s h1 h2 h3 h4 h5
    exact ⟨s, [], rfl, h1, h2, h3, h4, by simp⟩
  | succ k ih =>
    intro s h1 h2 h3 h4 h5
    have h5' : s.semi_transparent_vertices.length + 3 * (k + 1) ≤ 2048 := by
      simpa [VERTEX_BUFFER_LEN] using h5
    have hforce : s.force_draw_cond 3 DrawMode.triangles
        (c1_vertex.semi_transparent == 1) SemiTransparencyMode.Average
        = false := by
      simp only [GlRenderer.force_draw_cond, DrawBuffer.remaining_capacity,
        h1, h2, h3, h4]
      simp [c1_vertex, VERTEX_BUFFER_LEN]
      omega
    have hmf := GlRenderer.maybe_force_draw_eq_false s 3 DrawMode.triangles
      (c1_vertex.semi_transparent == 1) SemiTransparencyMode.Average hforce
    have hpush := GlRenderer.push_triangle_eq s
      (c1_vertex, c1_vertex, c1_vertex) SemiTransparencyMode.Average s []
      hmf (fun hn => absurd hn (by simp [c1_vertex]))
    have hpush' : s.push_triangle (c1_vertex, c1_vertex, c1_vertex)
        SemiTransparencyMode.Average = some
        ({ s with
            primitive_ordering := s.primitive_ordering + 1
            semi_transparent_vertices := s.semi_transparent_vertices ++
              [c1_vertex.with_z s.primitive_ordering,
               c1_vertex.with_z s.primitive_ordering,
               c1_vertex.with_z s.primitive_ordering] },
         [Ev.prim [c1_vertex.with_z s.primitive_ordering,
                   c1_vertex.with_z s.primitive_ordering,
                   c1_vertex.with_z s.primitive_ordering] false true]) := by
      rw [hpush]
      simp [c1_vertex]
    obtain ⟨s', evs, hrun, p1, p2, p3, p4, p5⟩ := ih
      { s with
          primitive_ordering := s.primitive_ordering + 1
          semi_transparent_vertices := s.semi_transparent_vertices ++
            [c1_vertex.with_z s.primitive_ordering,
             c1_vertex.with_z s.primitive_ordering,
             c1_vertex.with_z s.primitive_ordering] }
      h1 h2 h3 h4
      (by
        simp only [List.length_append, List.length_cons, List.length_nil]
        simp [VERTEX_BUFFER_LEN]
        omega)
    refine ⟨s', [Ev.prim [c1_vertex.with_z s.primitive_ordering,
                   c1_vertex.with_z s.primitive_ordering,
                   c1_vertex.with_z s.primitive_ordering] false true] ++ evs,
      ?_, p1, p2, p3, p4, ?_⟩
    · simp only [c1_cmd] at hrun
      simp only [List.replicate_succ, run_from, c1_cmd, step_cmd, hpush',
        hrun]
    · simp only [List.length_append, List.length_cons, List.length_nil] at p5
      omega

/-- C1 counterexample: starting from the freshly built renderer, push 682
semi-transparent untextured triangles in the current `Average` mode (no
claimed flush condition ever holds: topology and mode never change and
the opaque command buffer stays empty). At the 683rd such triangle the
code DOES force a flush — the semi-transparent batch has 2046 of its 2048
vertices used — although the claimed condition is still false, refuting
the claimed "exactly when ... never more often". -/
theorem c1_counterexample :
    GlRenderer.from_config initial_draw_config fresh_vars =
      some fresh_renderer ∧
    (run_from fresh_renderer (List.replicate 682 c1_cmd)).map
        (fun p =>
          (p.1.force_draw_cond 3 DrawMode.triangles true
             SemiTransparencyMode.Average,
           claimed_force_flush p.1 3 DrawMode.triangles true
             SemiTransparencyMode.Average)) = some (true, false) := by
  refine ⟨fresh_renderer_eq, ?_⟩
  obtain ⟨s', evs, hrun, hlen, hcap, hdm, hstm, hslen⟩ :=
    c1_run_semi_triangles 682 fresh_renderer rfl rfl rfl rfl
      (by norm_num [VERTEX_BUFFER_LEN, fresh_renderer])
  rw [hrun, Option.map_some']
  have hs : s'.semi_transparent_vertices.length = 2046 := by
    rw [hslen]
    norm_num [fresh_renderer]
  simp only [Option.some.injEq, Prod.mk.injEq]
  constructor
  · simp [GlRenderer.force_draw_cond, hs, VERTEX_BUFFER_LEN]
  · simp [claimed_force_flush, DrawBuffer.remaining_capacity, hlen, hcap,
      hdm, hstm, VERTEX_BUFFER_LEN]

/-! ### C7 — batch membership of pushed primitives -/

/-- C7 (amended): relative to the state left by `maybe_force_draw`, a
pushed TRIANGLE is appended to the opaque batch iff it is not
semi-transparent or its texture blend mode is not `none` (textured
semi-transparent triangles enter both batches), and to the
semi-transparent batch iff it is semi-transparent; a pushed LINE is
appended to the opaque batch iff it is not semi-transparent (regardless
of its blend mode), and to the semi-transparent batch iff it is
semi-transparent. -/
theorem c7_batch_membership_amended (s : GlRenderer)
    (m : SemiTransparencyMode) :
    (∀ (v : CommandVertex × CommandVertex × CommandVertex) s1 evs1,
      s.maybe_force_draw 3 DrawMode.triangles (v.1.semi_transparent == 1) m =
        some (s1, evs1) →
      3 ≤ s1.command_buffer.remaining_capacity →
      (s.push_triangle v m).map
          (fun p => (p.1.command_buffer.len,
                     p.1.semi_transparent_vertices.length)) =
        some
          ((if v.1.semi_transparent ≠ 1 ∨ v.1.texture_blend_mode ≠ 0
            then s1.command_buffer.len + 3 else s1.command_buffer.len),
           (if v.1.semi_transparent = 1
            then s1.semi_transparent_vertices.length + 3
            else s1.semi_transparent_vertices.length))) ∧
    (∀ (v : CommandVertex × CommandVertex) s1 evs1,
      s.maybe_force_draw 2 DrawMode.lines (v.1.semi_transparent == 1) m =
        some (s1, evs1) →
      2 ≤ s1.command_buffer.remaining_capacity →
      (s.push_line v m).map
          (fun p => (p.1.command_buffer.len,
                     p.1.semi_transparent_vertices.length)) =
        some
          ((if v.1.semi_transparent ≠ 1
            then s1.command_buffer.len + 2 else s1.command_buffer.len),
           (if v.1.semi_transparent = 1
            then s1.semi_transparent_vertices.length + 2
            else s1.semi_transparent_vertices.length))) := by
  constructor
  · intro v s1 evs1 hmf hcap
    rw [GlRenderer.push_triangle_eq s v m s1 evs1 hmf (fun _ => hcap)]
    by_cases hsem : v.1.semi_transparent = 1
    · by_cases hbl : v.1.texture_blend_mode = 0
      · simp [hsem, hbl]
      · simp [hsem, hbl]
    · simp [hsem]
  · intro v s1 evs1 hmf hcap
    rw [GlRenderer.push_line_eq s v m s1 evs1 hmf (fun _ => hcap)]
    by_cases hsem : v.1.semi_transparent = 1
    · simp [hsem]
    · simp [hsem]

/-- C7 counterexample: a semi-transparent line with texture blend mode
`raw` (≠ none) pushed on the freshly built renderer ends up ONLY in the
semi-transparent batch (opaque command buffer stays empty), contradicting
the claim that every such primitive is also appended to the opaque
batch. -/
theorem c7_counterexample :
    ((GlRenderer.from_config initial_draw_config
        { internal_resolution := 1, internal_color_depth := 16,
          scale_dither := true, wireframe := false }).bind
      fun r => (r.push_line (c7_line_vertex, c7_line_vertex)
          SemiTransparencyMode.Average).map
        fun p => (p.1.command_buffer.len,
                  p.1.semi_transparent_vertices.length))
      = some (0, 2) := by
  rfl

/-- C7 witness: a semi-transparent raw-textured TRIANGLE pushed on the
fresh renderer enters both batches (both batch sizes grow by 3). -/
theorem c7_batch_membership_amended_witness :
    (fresh_renderer.push_triangle
        (c7_line_vertex, c7_line_vertex, c7_line_vertex)
        SemiTransparencyMode.Average).map
      (fun p => (p.1.command_buffer.len,
                 p.1.semi_transparent_vertices.length)) =
      some (0 + 3, 0 + 3) := by
  have h := (c7_batch_membership_amended fresh_renderer
      SemiTransparencyMode.Average).1
    (c7_line_vertex, c7_line_vertex, c7_line_vertex) fresh_renderer [] rfl
    (by decide)
  simpa [c7_line_vertex] using h
/-! ### C4 — load_image writes the rectangle into DrawConfig.vram -/

/-- A pointwise `store` leaves every other address unchanged. -/
theorem store_ne (m : Nat → Nat) (i v addr : Nat) (h : addr ≠ i) :
    store m i v addr = m addr := by
  simp [store, h]

/-- The inner `for x in 0..w` loop of `load_image` leaves addresses
outside the written row segment unchanged. -/
theorem c4_inner_unchanged (xs ys w : Nat) (buf : Nat → Nat) (y : Nat)
    (l : List Nat) : ∀ (vr : Nat → Nat) (addr : Nat),
    (∀ x ∈ l, addr ≠ (ys + y) * VRAM_WIDTH_PIXELS + (xs + x)) →
    (l.foldl (fun vr2 x =>
        store vr2 ((ys + y) * VRAM_WIDTH_PIXELS + (xs + x))
          (buf (y * w + x))) vr) addr = vr addr := by
  induction l with
  | nil => intro vr addr _; rfl
  | cons a t iht =>
    intro vr addr hni
    simp only [List.foldl_cons]
    rw [iht _ _ (fun x hx => hni x (List.mem_cons_of_mem a hx))]
    exact store_ne _ _ _ _ (hni a (List.mem_cons_self a t))

/-- The inner loop writes `buf (y * w + x0)` at the address of column
`x0` of the row. -/
theorem c4_inner_written (xs ys w : Nat) (buf : Nat → Nat) (y : Nat)
    (l : List Nat) : ∀ (vr : Nat → Nat) (x0 : Nat),
    l.Nodup → x0 ∈ l →
    (l.foldl (fun vr2 x =>
        store vr2 ((ys + y) * VRAM_WIDTH_PIXELS + (xs + x))
          (buf (y * w + x))) vr)
      ((ys + y) * VRAM_WIDTH_PIXELS + (xs + x0)) = buf (y * w + x0) := by
  induction l with
  | nil =>
    intro vr x0 _ hmem
    exact absurd hmem (List.not_mem_nil x0)
  | cons a t iht =>
    intro vr x0 hnd hmem
    simp only [List.foldl_cons]
    rcases List.mem_cons.mp hmem with heq | hmem'
    · subst heq
      rw [c4_inner_unchanged xs ys w buf y t _ _ ?_]
      · simp [store]
      · intro x hx hadr
        have hx0 : x0 = x := by omega
        subst hx0
        exact (List.nodup_cons.mp hnd).1 hx
    · exact iht _ x0 (List.nodup_cons.mp hnd).2 hmem'

/-- The outer `for y in 0..h` loop leaves addresses outside every written
row segment unchanged. -/
theorem c4_rows_unchanged (xs ys w : Nat) (buf : Nat → Nat)
    (l : List Nat) : ∀ (vr : Nat → Nat) (addr : Nat),
    (∀ y ∈ l, ∀ x ∈ List.range w,
      addr ≠ (ys + y) * VRAM_WIDTH_PIXELS + (xs + x)) →
    (l.foldl (fun vr y => (List.range w).foldl (fun vr2 x =>
        store vr2 ((ys + y) * VRAM_WIDTH_PIXELS + (xs + x))
          (buf (y * w + x))) vr) vr) addr = vr addr := by
  induction l with
  | nil => intro vr addr _; rfl
  | cons a t iht =>
    intro vr addr hni
    simp only [List.foldl_cons]
    rw [iht _ _ (fun y hy => hni y (List.mem_cons_of_mem a hy))]
    exact c4_inner_unchanged xs ys w buf a (List.range w) vr addr
      (fun x hx => hni a (List.mem_cons_self a t) x hx)

/-- The outer loop writes `buf (y0 * w + x0)` at the address of
cell `(x0, y0)` of the rectangle (given the row fits in the VRAM
width, so rows do not alias). -/
theorem c4_rows_written (xs ys w : Nat) (buf : Nat → Nat)
    (hxw : xs + w ≤ VRAM_WIDTH_PIXELS)
    (l : List Nat) : ∀ (vr : Nat → Nat) (y0 x0 : Nat),
    l.Nodup → y0 ∈ l → x0 < w →
    (l.foldl (fun vr y => (List.range w).foldl (fun vr2 x =>
        store vr2 ((ys + y) * VRAM_WIDTH_PIXELS + (xs + x))
          (buf (y * w + x))) vr) vr)
      ((ys + y0) * VRAM_WIDTH_PIXELS + (xs + x0)) = buf (y0 * w + x0) := by
  induction l with
  | nil =>
    intro vr y0 x0 _ hmem
    exact absurd hmem (List.not_mem_nil y0)
  | cons a t iht =>
    intro vr y0 x0 hnd hmem hx0
    simp only [List.foldl_cons]
    rcases List.mem_cons.mp hmem with heq | hmem'
    · subst heq
      rw [c4_rows_unchanged xs ys w buf t _ _ ?_]
      · exact c4_inner_written xs ys w buf y0 (List.range w) vr x0
          (List.nodup_range w) (List.mem_range.mpr hx0)
      · intro y hy x hx hadr
        rw [List.mem_range] at hx
        have hyy : y0 = y := by
          simp only [VRAM_WIDTH_PIXELS] at hadr hxw
          omega
        subst hyy
        exact (List.nodup_cons.mp hnd).1 hy
    · exact iht _ y0 x0 (List.nodup_cons.mp hnd).2 hmem' hx0

/-- Net effect of the `load_image` VRAM copy loop: the rectangle reads
back as the pixel buffer (row-major, stride `w`), everything else is
unchanged. -/
theorem c4_load_image_vram_spec (vram buf : Nat → Nat) (xs ys w h : Nat)
    (hxw : xs + w ≤ VRAM_WIDTH_PIXELS) :
    (∀ x y, x < w → y < h →
      OldRev.GlState.load_image_vram vram xs ys w h buf
        ((ys + y) * VRAM_WIDTH_PIXELS + (xs + x)) = buf (y * w + x)) ∧
    (∀ r c, c < VRAM_WIDTH_PIXELS →
      ¬(ys ≤ r ∧ r < ys + h ∧ xs ≤ c ∧ c < xs + w) →
      OldRev.GlState.load_image_vram vram xs ys w h buf
        (r * VRAM_WIDTH_PIXELS + c) = vram (r * VRAM_WIDTH_PIXELS + c)) := by
  constructor
  · intro x y hx hy
    exact c4_rows_written xs ys w buf hxw (List.range h) vram y x
      (List.nodup_range h) (List.mem_range.mpr hy) hx
  · intro r c hc hno
    refine c4_rows_unchanged xs ys w buf (List.range h) vram _ ?_
    intro y hy x hx hadr
    rw [List.mem_range] at hy hx
    apply hno
    simp only [VRAM_WIDTH_PIXELS] at hadr hxw hc
    omega

/-- The older revision's `from_config` on the boot config evaluates to
`old_fresh_state`. -/
theorem old_fresh_state_eq :
    OldRev.GlState.from_config initial_draw_config fresh_vars =
      some old_fresh_state := rfl

/-- The older revision's `upload_textures` never touches the config. -/
theorem OldRev.GlState.upload_textures_config (s : OldRev.GlState)
    (tl dim : Nat × Nat) :
    ∀ s', s.upload_textures tl dim = some s' → s'.config = s.config := by
  intro s' h
  unfold OldRev.GlState.upload_textures at h
  simp only [DrawBuffer.push_slice] at h
  split at h
  · simp only [Option.some.injEq] at h
    subst h
    rfl
  · exact absurd h (by simp)

/-- The older revision's `draw` never touches the config. -/
theorem OldRev.GlState.draw_config_eq (s : OldRev.GlState) :
    (s.draw).1.config = s.config := by
  unfold OldRev.GlState.draw
  split <;> rfl

/-- C4: for an in-bounds rectangle, `load_image` copies the pixel buffer
into `DrawConfig.vram` row-major with VRAM-width stride — reading the
same rectangle back from the config yields exactly the pixel buffer — and
every VRAM pixel outside the rectangle is unchanged. -/
theorem c4_load_image_roundtrip (s : OldRev.GlState)
    (x_start y_start w h : Nat) (pixel_buffer : Nat → Nat)
    (hx : x_start + w ≤ VRAM_WIDTH_PIXELS)
    (hy : y_start + h ≤ VRAM_HEIGHT) :
    ∀ s' evs, s.load_image (x_start, y_start) (w, h) pixel_buffer =
        some (s', evs) →
      (∀ x y, x < w → y < h →
        s'.config.vram ((y_start + y) * VRAM_WIDTH_PIXELS + (x_start + x)) =
          pixel_buffer (y * w + x)) ∧
      (∀ r c, c < VRAM_WIDTH_PIXELS →
        ¬(y_start ≤ r ∧ r < y_start + h ∧ x_start ≤ c ∧ c < x_start + w) →
        s'.config.vram (r * VRAM_WIDTH_PIXELS + c) =
          s.config.vram (r * VRAM_WIDTH_PIXELS + c)) := by
  intro s' evs hload
  unfold OldRev.GlState.load_image at hload
  rw [Option.map_eq_some'] at hload
  obtain ⟨s3, hup, hmap⟩ := hload
  rw [Prod.mk.injEq] at hmap
  obtain ⟨h1, -⟩ := hmap
  subst h1
  have hconf := OldRev.GlState.upload_textures_config _ _ _ s3 hup
  rw [hconf]
  have hdraw := OldRev.GlState.draw_config_eq s
  obtain ⟨hwrt, hunch⟩ := c4_load_image_vram_spec
    ((s.draw).1.config.vram) pixel_buffer x_start y_start w h hx
  constructor
  · intro x y hxx hyy
    simpa using hwrt x y hxx hyy
  · intro r c hc hno
    simpa [hdraw] using hunch r c hc hno

/-- C4 witness: uploading a 2×2 buffer at (3, 1) on the freshly built
old-revision state reads back a written pixel and leaves an address
outside the rectangle at its boot value. -/
theorem c4_load_image_roundtrip_witness :
    ∃ t' evs, OldRev.GlState.load_image old_fresh_state (3, 1) (2, 2)
        (fun i => 100 + i) = some (t', evs) ∧
      t'.config.vram ((1 + 0) * VRAM_WIDTH_PIXELS + (3 + 1)) = 100 + 1 ∧
      t'.config.vram (500 * VRAM_WIDTH_PIXELS + 5) =
        old_fresh_state.config.vram (500 * VRAM_WIDTH_PIXELS + 5) := by
  have hsome : (OldRev.GlState.load_image old_fresh_state (3, 1) (2, 2)
      (fun i => 100 + i)).isSome = true := rfl
  obtain ⟨⟨t', evs⟩, hl⟩ := Option.isSome_iff_exists.mp hsome
  obtain ⟨hwrt, hunch⟩ := c4_load_image_roundtrip old_fresh_state 3 1 2 2
    (fun i => 100 + i) (by decide) (by decide) t' evs hl
  refine ⟨t', evs, hl, ?_, ?_⟩
  · have hval := hwrt 1 0 (by decide) (by decide)
    simpa using hval
  · exact hunch 500 5 (by decide) (by decide)

/-! ### C8 — DrawBuffer capacity errors -/

/-- C8: `push_slice` returns a capacity error exactly when the slice
length exceeds `remaining_capacity()`; on that error the logical length
(hence also the remaining capacity) is unchanged, and on success the
logical length grows by exactly the slice length. -/
theorem c8_push_slice_capacity {α : Type} (b : DrawBuffer α)
    (slice : List α) :
    ((b.push_slice slice).2 = Except.error GlError.outOfMemory ↔
      slice.length > b.remaining_capacity) ∧
    (slice.length > b.remaining_capacity →
      (b.push_slice slice).1 = b) ∧
    (¬ slice.length > b.remaining_capacity →
      (b.push_slice slice).1.len = b.len + slice.length) := by
  unfold DrawBuffer.push_slice
  by_cases h : slice.length > b.remaining_capacity <;> simp [h]

/-- C8 witness: pushing two elements into a fresh buffer of capacity
three succeeds and grows the length by two. -/
theorem c8_push_slice_capacity_witness :
    ((DrawBuffer.new Nat 3).push_slice [5, 7]).1.len = 0 + 2 :=
  (c8_push_slice_capacity (DrawBuffer.new Nat 3) [5, 7]).2.2 (by decide)

/-! ### C9 — Suspended-state calls touch no device state -/

/-- C9: rendering a frame in the `Invalid` (suspended) state is rejected
with the explicit no-context panic rather than touching stale GPU
handles, and every draw-command call of the suspended `DummyState`
revision leaves its state untouched. -/
theorem c9_suspended_rejected :
    (∀ (c : DrawConfig) (vc : VideoClock)
        (emulate : GlRenderer → Option (GlRenderer × List Ev)),
      RetroGl.render_frame { state := GlState.Invalid c, video_clock := vc }
          emulate =
        Except.error "Attempted to render a frame without GL context") ∧
    (∀ (d : OldRev.DummyState) (a : OldRev.PrimitiveAttributes)
        (v2 : OldRev.Vertex × OldRev.Vertex)
        (v3 : OldRev.Vertex × OldRev.Vertex × OldRev.Vertex)
        (v4 : OldRev.Vertex × OldRev.Vertex × OldRev.Vertex × OldRev.Vertex)
        (tl res : Nat × Nat) (buf : Nat → Nat),
      d.push_line a v2 = d ∧ d.push_triangle a v3 = d ∧
      d.push_quad a v4 = d ∧ d.load_image tl res buf = d) :=
  ⟨fun _ _ _ => rfl, fun _ _ _ _ _ _ _ _ => ⟨rfl, rfl, rfl, rfl⟩⟩

/-! ### C10 — boot state -/

/-- C10: a successful `RetroGl::new` starts in the `Invalid` (suspended)
state — `is_valid` is `false` — with the documented boot `DrawConfig`
and every VRAM pixel equal to the `0xdead` filler. -/
theorem c10_new_boot_state (vc : VideoClock) :
    RetroGl.new vc true true =
      some { state := GlState.Invalid initial_draw_config
             video_clock := vc } ∧
    (∀ rg, RetroGl.new vc true true = some rg → rg.is_valid = false) ∧
    initial_draw_config.display_top_left = (0, 0) ∧
    initial_draw_config.display_resolution = (1024, 512) ∧
    initial_draw_config.display_24bpp = false ∧
    initial_draw_config.draw_offset = (0, 0) ∧
    initial_draw_config.draw_area_top_left = (0, 0) ∧
    initial_draw_config.draw_area_dimensions = (0, 0) ∧
    (∀ i, i < VRAM_PIXELS → initial_draw_config.vram i = 0xdead) := by
  refine ⟨rfl, ?_, rfl, rfl, rfl, rfl, rfl, rfl, fun i _ => rfl⟩
  intro rg h
  simp only [RetroGl.new, Bool.not_true, Bool.false_eq_true, if_false,
    Option.some.injEq] at h
  subst h
  rfl

/-- C10 witness: the boot state at the NTSC video clock. -/
theorem c10_new_boot_state_witness :
    RetroGl.new VideoClock.ntsc true true =
      some { state := GlState.Invalid initial_draw_config
             video_clock := VideoClock.ntsc } ∧
    initial_draw_config.vram 0 = 0xdead :=
  ⟨(c10_new_boot_state VideoClock.ntsc).1,
   (c10_new_boot_state VideoClock.ntsc).2.2.2.2.2.2.2.2 0 (by decide)⟩

end Rustation
